import Mathlib

set_option maxHeartbeats 1000000

/-! Shallow embedding of tmate-ssh-client.c: the per-server ssh connection
candidate state machine, the race coordination on host authentication
success, and the kill / reconnect teardown paths. External libssh calls
are modelled by an environment record holding their results for one
invocation of the state machine; observable side effects (user-visible
status messages, debug logs, list removals, handle releases, frees,
assertion checks) are recorded in an event list. -/

/-- States of the ssh client state machine (client->state). -/
inductive SshState where
| SSH_NONE
| SSH_INIT
| SSH_CONNECT
| SSH_AUTH_SERVER
| SSH_AUTH_CLIENT
| SSH_OPEN_CHANNEL
| SSH_BOOTSTRAP
| SSH_READY
deriving DecidableEq, Repr

/-- Return codes of ssh_connect / ssh_channel_open_session / ssh_channel_request_subsystem. -/
inductive SshRc where
| SSH_AGAIN
| SSH_ERROR
| SSH_OK
deriving DecidableEq, Repr

/-- Return codes of ssh_userauth_autopubkey. -/
inductive AuthRc where
| SSH_AUTH_AGAIN
| SSH_AUTH_PARTIAL
| SSH_AUTH_INFO
| SSH_AUTH_DENIED
| SSH_AUTH_ERROR
| SSH_AUTH_SUCCESS
deriving DecidableEq, Repr

/-- Key types as classified by the switch on ssh_key_type: the two recognized
types, and a catch-all for every other type (the default branch). -/
inductive KeyType where
| SSH_KEYTYPE_RSA
| SSH_KEYTYPE_ECDSA
| SSH_KEYTYPE_UNKNOWN
deriving DecidableEq, Repr

/-- Observable side effects of one run of the state machine. -/
inductive Ev where
| statusMessage (msg : String)
| debugMsg (msg : String)
| assertCheck (ok : Bool)
| removeFromList (id : Nat)
| eventDel (id : Nat)
| sshFree (id : Nat)
| freeClient (id : Nat)
| fatal (msg : String)
| promptAttach (id : Nat)
| authAttempt (id : Nat) (tried : Option String)
| decoderCommit (n : Nat)
| encoderSetReady (id : Nat)
| decoderInit (id : Nat)
| setBlocking (b : Bool)
| timerArm (id : Nat)
deriving DecidableEq, Repr

/-- One struct tmate_ssh_client. Handles are booleans standing for the
null-ness of the session / channel pointers. The id makes the candidate
identifiable inside the session's list. -/
structure SshClient where
  id : Nat
  state : SshState
  server_ip : String
  session_handle : Bool
  channel_handle : Bool
  tried_passphrase : Option String
  has_encoder : Bool
  ev_initialized : Bool
deriving DecidableEq, Repr

/-- Session-wide state of struct tmate_session relevant to this module:
the candidate list, passphrase cache, need_passphrase flag, whether a
password prompt is currently attached to the prompt pane, and the userdata
wired into the shared encoder / decoder (IOBridge activation). -/
structure TmateSession where
  clients : List SshClient
  passphrase : Option String
  need_passphrase : Bool
  prompt_pending : Bool
  encoder_userdata : Option Nat
  decoder_userdata : Option Nat
deriving DecidableEq, Repr

/-- Configuration options read from global_options. -/
structure Config where
  tmate_identity : String
  rsa_fingerprint : String
  ecdsa_fingerprint : String
deriving DecidableEq, Repr

/-- Results of the external libssh calls during one invocation of
on_ssh_client_event. is_connected is the value returned by the
ssh_is_connected call made in SSH_READY on the local session variable. -/
structure Env where
  ssh_new_ok : Bool
  channel_new_ok : Bool
  connect_rc : SshRc
  get_publickey_ok : Bool
  get_publickey_hash_ok : Bool
  get_hexa_ok : Bool
  hash_str : String
  key_type : KeyType
  auth_cb_invoked : Bool
  auth_rc : AuthRc
  open_channel_rc : SshRc
  subsystem_rc : SshRc
  channel_reads : List Int
  is_connected : Bool
  ssh_error : String
deriving DecidableEq, Repr

/-- Intermediate state threaded through one invocation: the session fields,
the candidate list (cur's entry in it may be stale until write-back), the
current client struct, whether it is still linked in the list, whether the
struct was freed, and the events so far. -/
structure M where
  clients : List SshClient
  passphrase : Option String
  need_passphrase : Bool
  prompt_pending : Bool
  encoder_userdata : Option Nat
  decoder_userdata : Option Nat
  cur : SshClient
  cur_in_list : Bool
  freed : Bool
  evs : List Ev
deriving DecidableEq, Repr

def M.emit (m : M) (e : Ev) : M := { m with evs := m.evs ++ [e] }

/-- TAILQ_REMOVE of the client with the given id. -/
def removeId (l : List SshClient) (i : Nat) : List SshClient :=
  l.filter (fun c => c.id != i)

/-- Embedding of __kill_ssh_client: given the candidate list as it stands
after the caller removed the client, surface the message if one was given
and the list is empty, otherwise log at debug level; delete the readiness
event if registered; free the ssh session (which also invalidates the
channel); set the state to SSH_NONE. Returns the updated client struct
and the emitted events. -/
def kill_ssh_client_common (remaining : List SshClient) (c : SshClient)
    (fmt : Option String) : SshClient × List Ev :=
  let msgEvs := match fmt with
    | some m =>
        if remaining.isEmpty then [Ev.statusMessage m]
        else [Ev.debugMsg ("Disconnecting " ++ c.server_ip)]
    | none => [Ev.debugMsg ("Disconnecting " ++ c.server_ip)]
  let delEvs := if c.ev_initialized then [Ev.eventDel c.id] else []
  let fr := if c.session_handle
    then ({ c with session_handle := false, channel_handle := false }, [Ev.sshFree c.id])
    else (c, ([] : List Ev))
  ({ fr.1 with state := SshState.SSH_NONE }, msgEvs ++ delEvs ++ fr.2)

/-- Embedding of kill_ssh_client: remove from the session's list, common
teardown, then free the server_ip and the client struct itself. -/
def kill_ssh_client (clients : List SshClient) (c : SshClient)
    (fmt : Option String) : List SshClient × List Ev :=
  let remaining := removeId clients c.id
  let r := kill_ssh_client_common remaining c fmt
  (remaining, Ev.removeFromList c.id :: r.2 ++ [Ev.freeClient c.id])

/-- Embedding of reconnect_ssh_client: remove from the session's list and
common teardown. The retry timer re-arm is compiled out in the source
(dead code), so no timerArm event is ever produced; the struct survives. -/
def reconnect_ssh_client (clients : List SshClient) (c : SshClient)
    (fmt : Option String) : List SshClient × SshClient × List Ev :=
  let remaining := removeId clients c.id
  let r := kill_ssh_client_common remaining c fmt
  (remaining, r.1, Ev.removeFromList c.id :: r.2)

/-- kill_ssh_client applied to the current client of an invocation. -/
def killCur (m : M) (fmt : Option String) : M :=
  let remaining := removeId m.clients m.cur.id
  let r := kill_ssh_client_common remaining m.cur fmt
  { m with clients := remaining, cur := r.1, cur_in_list := false, freed := true,
           evs := m.evs ++ Ev.removeFromList m.cur.id :: r.2 ++ [Ev.freeClient m.cur.id] }

/-- reconnect_ssh_client applied to the current client of an invocation. -/
def reconnectCur (m : M) (fmt : Option String) : M :=
  let remaining := removeId m.clients m.cur.id
  let r := kill_ssh_client_common remaining m.cur fmt
  { m with clients := remaining, cur := r.1, cur_in_list := false,
           evs := m.evs ++ Ev.removeFromList m.cur.id :: r.2 }

/-- kill_ssh_client applied to a sibling candidate during race elimination. -/
def killSibling (m : M) (k : SshClient) : M :=
  let r := kill_ssh_client m.clients k none
  { m with clients := r.1, evs := m.evs ++ r.2 }

/-- Embedding of on_ssh_auth_server_complete: for every other client of the
session, assert it has no encoder and kill it with no message. -/
def on_ssh_auth_server_complete (m : M) : M :=
  let siblings := m.clients.filter (fun k => k.id != m.cur.id)
  siblings.foldl (fun acc k => killSibling (acc.emit (Ev.assertCheck (!k.has_encoder))) k) m

/-- Embedding of get_identity: empty option yields nothing; an identity
containing a path separator is used verbatim, otherwise it is substituted
into the per-user default key-directory pattern. -/
def get_identity (cfg : Config) : Option String :=
  let identity := cfg.tmate_identity
  if identity.length == 0 then none
  else if identity.data.contains '/' then some identity
  else some ("%d/" ++ identity)

/-- Expected fingerprint for a key type: the two recognized types read the
configured option, the default branch uses the empty string. -/
def server_fingerprint (cfg : Config) : KeyType → String
  | KeyType.SSH_KEYTYPE_RSA => cfg.rsa_fingerprint
  | KeyType.SSH_KEYTYPE_ECDSA => cfg.ecdsa_fingerprint
  | KeyType.SSH_KEYTYPE_UNKNOWN => ""

/-- match = !strcmp(hash_str, server_hash_str): exact string equality. -/
def host_key_match (cfg : Config) (kt : KeyType) (hash_str : String) : Bool :=
  hash_str == server_fingerprint cfg kt

/-- Embedding of passphrase_callback: sets need_passphrase (the buffer copy
of the cached passphrase goes to the transport and is not observable here). -/
def passphrase_callback (m : M) : M :=
  { m with need_passphrase := true }

/-- Embedding of request_passphrase: if a password prompt is already active
no-op, otherwise attach the password-mode prompt to the pane. -/
def request_passphrase (m : M) : M :=
  if m.prompt_pending then m
  else { m with prompt_pending := true, evs := m.evs ++ [Ev.promptAttach m.cur.id] }

/-- Embedding of register_session_fd_event: register the readiness event
once. -/
def register_session_fd_event (m : M) : M :=
  if m.cur.ev_initialized then m
  else { m with cur := { m.cur with ev_initialized := true } }

/-- Embedding of the read loop in read_channel over the list of results the
channel will deliver: a negative length triggers reconnect teardown and
stops, zero stops, a positive length is committed to the decoder. -/
def read_channel_loop (env : Env) (m : M) : List Int → M
  | [] => m
  | r :: rs =>
      if r < 0 then
        reconnectCur m (some ("Error reading from channel: " ++ env.ssh_error))
      else if r == 0 then m
      else read_channel_loop env (m.emit (Ev.decoderCommit r.toNat)) rs

def read_channel (env : Env) (m : M) : M :=
  read_channel_loop env m env.channel_reads

/-- SSH_READY: drain the channel, then test ssh_is_connected on the local
session variable captured at entry (stale if the drain tore down) and
reconnect-teardown when it reports disconnected. -/
def handle_ready (env : Env) (m : M) : M :=
  let m := read_channel env m
  if !env.is_connected then reconnectCur m (some "Disconnected")
  else m

/-- SSH_BOOTSTRAP: request the tmate subsystem; on success switch writes to
blocking, enter SSH_READY, wire the encoder and decoder to this client and
fall through. -/
def handle_bootstrap (env : Env) (m : M) : M :=
  match env.subsystem_rc with
  | SshRc.SSH_AGAIN => m
  | SshRc.SSH_ERROR =>
      reconnectCur m (some ("Error initializing tmate: " ++ env.ssh_error))
  | SshRc.SSH_OK =>
      let m := m.emit (Ev.debugMsg "Ready")
      let m := m.emit (Ev.setBlocking true)
      let m := { m with cur := { m.cur with state := SshState.SSH_READY } }
      let m := { m with encoder_userdata := some m.cur.id,
                        evs := m.evs ++ [Ev.encoderSetReady m.cur.id] }
      let m := { m with decoder_userdata := some m.cur.id,
                        evs := m.evs ++ [Ev.decoderInit m.cur.id] }
      handle_ready env m

/-- SSH_OPEN_CHANNEL: open the session channel and fall through on success. -/
def handle_open_channel (env : Env) (m : M) : M :=
  match env.open_channel_rc with
  | SshRc.SSH_AGAIN => m
  | SshRc.SSH_ERROR =>
      reconnectCur m (some ("Error opening channel: " ++ env.ssh_error))
  | SshRc.SSH_OK =>
      let m := m.emit (Ev.debugMsg "Session opened, initalizing tmate")
      let m := { m with cur := { m.cur with state := SshState.SSH_BOOTSTRAP } }
      handle_bootstrap env m

/-- SSH_AUTH_CLIENT: record the cached passphrase as the trial value and
attempt public key authentication; on partial/info/denied either prompt
for a passphrase (need_passphrase set) or kill, then emit the retry hint
when a trial passphrase was present; on error reconnect; on success fall
through. -/
def auth_client_pre (env : Env) (m : M) : M :=
  let m := { m with cur := { m.cur with tried_passphrase := m.passphrase } }
  let m := m.emit (Ev.authAttempt m.cur.id m.cur.tried_passphrase)
  if env.auth_cb_invoked then passphrase_callback m else m

/-- Shared body of the partial / info / denied cases: prompt for a
passphrase when need_passphrase is set, otherwise kill; then emit the
retry hint when the trial passphrase was present (the kill path reads the
freed struct in the original, which still holds the recorded value). -/
def auth_denied_hint (m : M) : M :=
  if m.cur.tried_passphrase.isSome then
    m.emit (Ev.statusMessage "Can\x27t load SSH key. Try typing passphrase again in case of typo. ctrl-c to abort.")
  else m

def auth_denied_action (m : M) : M :=
  auth_denied_hint (if m.need_passphrase then request_passphrase m
    else killCur m (some "SSH keys not found. Run \x27ssh-keygen\x27 to create keys and try again."))

def handle_auth_client (env : Env) (m : M) : M :=
  let m := auth_client_pre env m
  match env.auth_rc with
  | AuthRc.SSH_AUTH_AGAIN => m
  | AuthRc.SSH_AUTH_PARTIAL | AuthRc.SSH_AUTH_INFO | AuthRc.SSH_AUTH_DENIED =>
      auth_denied_action m
  | AuthRc.SSH_AUTH_ERROR =>
      reconnectCur m (some ("Auth error: " ++ env.ssh_error))
  | AuthRc.SSH_AUTH_SUCCESS =>
      let m := m.emit (Ev.debugMsg "Auth successful")
      let m := { m with cur := { m.cur with state := SshState.SSH_OPEN_CHANNEL } }
      handle_open_channel env m

/-- SSH_AUTH_SERVER: fetch the server public key (fatal on failure) and its
hash (kill on failure), render the hash (fatal on failure), compare it to
the configured fingerprint for the key type; on mismatch kill, on match
eliminate the sibling candidates and fall through to client auth. -/
def handle_auth_server (cfg : Config) (env : Env) (m : M) : M :=
  if !env.get_publickey_ok then m.emit (Ev.fatal "ssh_get_publickey")
  else if !env.get_publickey_hash_ok then killCur m (some "Cannot authenticate server")
  else if !env.get_hexa_ok then m.emit (Ev.fatal "malloc failed")
  else if !host_key_match cfg env.key_type env.hash_str then
    killCur m (some "Cannot authenticate server")
  else
    let m := m.emit (Ev.debugMsg ("Connected to " ++ m.cur.server_ip))
    let m := on_ssh_auth_server_complete m
    let m := { m with cur := { m.cur with state := SshState.SSH_AUTH_CLIENT } }
    handle_auth_client env m

/-- SSH_CONNECT: non-blocking connect; would-block registers the readiness
event and suspends, error reconnects, success registers and falls through. -/
def handle_connect (cfg : Config) (env : Env) (m : M) : M :=
  match env.connect_rc with
  | SshRc.SSH_AGAIN => register_session_fd_event m
  | SshRc.SSH_ERROR =>
      reconnectCur m (some ("Error connecting: " ++ env.ssh_error))
  | SshRc.SSH_OK =>
      let m := register_session_fd_event m
      let m := m.emit (Ev.debugMsg ("Establishing connection to " ++ m.cur.server_ip))
      let m := { m with cur := { m.cur with state := SshState.SSH_AUTH_SERVER } }
      handle_auth_server cfg env m

/-- SSH_INIT: allocate the transport session and channel (fatal on failure),
configure them, and fall through to connect. -/
def handle_init (cfg : Config) (env : Env) (m : M) : M :=
  if !env.ssh_new_ok then m.emit (Ev.fatal "cannot initialize")
  else
    let m := { m with cur := { m.cur with session_handle := true } }
    if !env.channel_new_ok then m.emit (Ev.fatal "cannot initialize")
    else
      let m := { m with cur := { m.cur with channel_handle := true } }
      let m := { m with cur := { m.cur with state := SshState.SSH_CONNECT } }
      handle_connect cfg env m

/-- Dispatch of the outer switch of on_ssh_client_event. SSH_NONE matches no
case and falls out. -/
def step_m (cfg : Config) (env : Env) (m : M) : M :=
  match m.cur.state with
  | SshState.SSH_NONE => m
  | SshState.SSH_INIT => handle_init cfg env m
  | SshState.SSH_CONNECT => handle_connect cfg env m
  | SshState.SSH_AUTH_SERVER => handle_auth_server cfg env m
  | SshState.SSH_AUTH_CLIENT => handle_auth_client env m
  | SshState.SSH_OPEN_CHANNEL => handle_open_channel env m
  | SshState.SSH_BOOTSTRAP => handle_bootstrap env m
  | SshState.SSH_READY => handle_ready env m

def findClient (l : List SshClient) (i : Nat) : Option SshClient :=
  l.find? (fun c => c.id == i)

def initM (sess : TmateSession) (c : SshClient) : M :=
  { clients := sess.clients, passphrase := sess.passphrase,
    need_passphrase := sess.need_passphrase, prompt_pending := sess.prompt_pending,
    encoder_userdata := sess.encoder_userdata, decoder_userdata := sess.decoder_userdata,
    cur := c, cur_in_list := true, freed := false, evs := [] }

/-- Write the session back from the invocation state: if the client is still
linked, its (stale) entry in the list reflects the struct mutations made
through the pointer. -/
def finishM (m : M) (cid : Nat) : TmateSession × List Ev :=
  let clients := if m.cur_in_list
    then m.clients.map (fun k => if k.id == cid then m.cur else k)
    else m.clients
  ({ clients := clients, passphrase := m.passphrase,
     need_passphrase := m.need_passphrase, prompt_pending := m.prompt_pending,
     encoder_userdata := m.encoder_userdata, decoder_userdata := m.decoder_userdata },
   m.evs)

/-- Embedding of one invocation of on_ssh_client_event on the client with
the given id (no-op if no such client exists in the session). -/
def on_ssh_client_event (cfg : Config) (env : Env) (sess : TmateSession)
    (cid : Nat) : TmateSession × List Ev :=
  match findClient sess.clients cid with
  | none => (sess, [])
  | some c =>
      let m := step_m cfg env (initM sess c)
      finishM m cid

/-- Embedding of on_passphrase_read: cache the submitted passphrase on the
session and re-invoke the candidate's state machine entry point. -/
def on_passphrase_read (cfg : Config) (env : Env) (sess : TmateSession)
    (cid : Nat) (passphrase : String) : TmateSession × List Ev :=
  on_ssh_client_event cfg env { sess with passphrase := some passphrase } cid

/-- The client struct as initialized by tmate_ssh_client_alloc before
connect_ssh_client runs. -/
def new_ssh_client (i : Nat) (server_ip : String) : SshClient :=
  { id := i, state := SshState.SSH_NONE, server_ip := server_ip,
    session_handle := false, channel_handle := false, tried_passphrase := none,
    has_encoder := false, ev_initialized := false }

/-- Embedding of connect_ssh_client: if the client has no transport session,
set the state to SSH_INIT and run the state machine. -/
def connect_ssh_client (cfg : Config) (env : Env) (sess : TmateSession)
    (cid : Nat) : TmateSession × List Ev :=
  match findClient sess.clients cid with
  | none => (sess, [])
  | some c =>
      if c.session_handle then (sess, [])
      else
        let cl := sess.clients.map
          (fun k => if k.id == cid then { c with state := SshState.SSH_INIT } else k)
        on_ssh_client_event cfg env { sess with clients := cl } cid

/-- Embedding of tmate_ssh_client_alloc: append a fresh candidate to the
session's list and immediately attempt to connect it. -/
def tmate_ssh_client_alloc (cfg : Config) (env : Env) (sess : TmateSession)
    (i : Nat) (server_ip : String) : TmateSession × List Ev :=
  connect_ssh_client cfg env
    { sess with clients := sess.clients ++ [new_ssh_client i server_ip] } i

/-- Run a list of readiness events, each naming the candidate it drives and
the external call results it observes; returns the final session state and
the concatenated events. -/
def run_events (cfg : Config) : List (Nat × Env) → TmateSession → TmateSession × List Ev
  | [], s => (s, [])
  | (cid, env) :: rest, s =>
      let r := on_ssh_client_event cfg env s cid
      let r2 := run_events cfg rest r.1
      (r2.1, r.2 ++ r2.2)

/-- A state strictly past SSH_AUTH_SERVER in handshake progress. -/
def statePast : SshState → Bool
  | SshState.SSH_AUTH_CLIENT | SshState.SSH_OPEN_CHANNEL
  | SshState.SSH_BOOTSTRAP | SshState.SSH_READY => true
  | _ => false

/-- Facts preserved by every handler of one invocation: the candidate list
only loses entries, the current client keeps its identity and its
has_encoder flag, and any assertion event appended during the invocation
checked a true condition provided no candidate had an encoder. -/
def handlerOK (m m' : M) : Prop :=
  m'.clients.Sublist m.clients ∧ m'.cur.id = m.cur.id ∧
  m'.cur.has_encoder = m.cur.has_encoder ∧
  ((∀ c ∈ m.clients, c.has_encoder = false) →
    ∀ b, Ev.assertCheck b ∈ m'.evs → Ev.assertCheck b ∈ m.evs ∨ b = true)

/-- Outcome of one invocation started in a state at or before
SSH_AUTH_SERVER: either the list only shrank and the client did not get
past SSH_AUTH_SERVER, or the race was won and every remaining candidate of
the session is the winner. -/
def notPastOK (m m' : M) : Prop :=
  (m'.clients.Sublist m.clients ∧ statePast m'.cur.state = false) ∨
  (∀ k ∈ m'.clients, k.id = m.cur.id)

/-- Session invariant for the race: candidate ids are distinct, and either
no candidate has passed SSH_AUTH_SERVER yet, or the race is decided and at
most one candidate remains. -/
def SessInv (s : TmateSession) : Prop :=
  (s.clients.map (fun c => c.id)).Nodup ∧
  ((∀ c ∈ s.clients, statePast c.state = false) ∨ s.clients.length ≤ 1)

/-- Concrete configuration used by the evaluation theorems. -/
def w_cfg : Config :=
  { tmate_identity := "id_rsa", rsa_fingerprint := "aa:bb", ecdsa_fingerprint := "cc:dd" }

/-- Concrete environment where every external call suspends or succeeds. -/
def w_env : Env :=
  { ssh_new_ok := true, channel_new_ok := true, connect_rc := SshRc.SSH_AGAIN,
    get_publickey_ok := true, get_publickey_hash_ok := true, get_hexa_ok := true,
    hash_str := "aa:bb", key_type := KeyType.SSH_KEYTYPE_RSA,
    auth_cb_invoked := false, auth_rc := AuthRc.SSH_AUTH_AGAIN,
    open_channel_rc := SshRc.SSH_AGAIN, subsystem_rc := SshRc.SSH_AGAIN,
    channel_reads := [], is_connected := true, ssh_error := "boom" }

/-- Concrete candidate 0, connected, in SSH_AUTH_SERVER. -/
def w_c0 : SshClient :=
  { new_ssh_client 0 "1.2.3.4" with
    state := SshState.SSH_AUTH_SERVER
    session_handle := true
    channel_handle := true
    ev_initialized := true }

/-- Concrete candidate 1, still connecting. -/
def w_c1 : SshClient :=
  { new_ssh_client 1 "5.6.7.8" with
    state := SshState.SSH_CONNECT
    session_handle := true
    channel_handle := true
    ev_initialized := true }

/-- Concrete session holding the two candidates. -/
def w_sess : TmateSession :=
  { clients := [w_c0, w_c1], passphrase := none, need_passphrase := false,
    prompt_pending := false, encoder_userdata := none, decoder_userdata := none }

/-- Concrete session with a single candidate in SSH_READY. -/
def w_sessReady : TmateSession :=
  { w_sess with clients := [{ w_c0 with state := SshState.SSH_READY }] }

/-- Concrete session with a single candidate in SSH_AUTH_CLIENT. -/
def w_sessAuth : TmateSession :=
  { w_sess with clients := [{ w_c0 with state := SshState.SSH_AUTH_CLIENT }] }

/-- Environment of the C2 failing input: the channel read fails and the
stale connectivity check then reports disconnected. -/
def w_env_read_err : Env := { w_env with channel_reads := [-1], is_connected := false }

/-- Environment where retrieving the server public key fails. -/
def w_env_nopub : Env := { w_env with get_publickey_ok := false }

/-- Environment where client auth is denied and the credential callback ran
during the attempt. -/
def w_env_denied_cb : Env := { w_env with auth_cb_invoked := true, auth_rc := AuthRc.SSH_AUTH_DENIED }

/-- Environment where client auth is denied without the callback running. -/
def w_env_denied : Env := { w_env with auth_rc := AuthRc.SSH_AUTH_DENIED }

/-- Environment where the server fingerprint mismatches. -/
def w_env_mismatch : Env := { w_env with hash_str := "zz" }

/-- Session with the single AUTH_CLIENT candidate and need_passphrase set. -/
def w_sessNeed : TmateSession := { w_sessAuth with need_passphrase := true }


/-- The partial / info / denied return codes of ssh_userauth_autopubkey. -/
def auth_denied_like : AuthRc → Bool
  | AuthRc.SSH_AUTH_PARTIAL | AuthRc.SSH_AUTH_INFO | AuthRc.SSH_AUTH_DENIED => true
  | _ => false


lemma removeId_sublist (l : List SshClient) (i : Nat) : (removeId l i).Sublist l :=
  List.filter_sublist l

lemma common_fst (rem : List SshClient) (c : SshClient) (fmt : Option String) :
    (kill_ssh_client_common rem c fmt).1 =
      { c with state := SshState.SSH_NONE,
               session_handle := false,
               channel_handle := (!c.session_handle && c.channel_handle) } := by
  unfold kill_ssh_client_common
  cases hs : c.session_handle <;> simp [hs]

lemma common_no_assert (rem : List SshClient) (c : SshClient) (fmt : Option String)
    (b : Bool) : Ev.assertCheck b ∉ (kill_ssh_client_common rem c fmt).2 := by
  unfold kill_ssh_client_common
  rcases fmt with _ | msg <;>
    cases he : c.ev_initialized <;> cases hs : c.session_handle <;>
    simp [he, hs] <;> split <;> simp

lemma common_status_none (rem : List SshClient) (c : SshClient) (s : String) :
    Ev.statusMessage s ∉ (kill_ssh_client_common rem c none).2 := by
  unfold kill_ssh_client_common
  cases he : c.ev_initialized <;> cases hs : c.session_handle <;> simp [he, hs]

lemma common_status_some (rem : List SshClient) (c : SshClient) (msg s : String) :
    Ev.statusMessage s ∈ (kill_ssh_client_common rem c (some msg)).2 ↔
      (s = msg ∧ rem.isEmpty = true) := by
  unfold kill_ssh_client_common
  cases hr : rem.isEmpty <;>
    cases he : c.ev_initialized <;> cases hs : c.session_handle <;>
    simp [he, hs, hr, eq_comm]

lemma common_debug_some (rem : List SshClient) (c : SshClient) (msg d : String) :
    Ev.debugMsg d ∈ (kill_ssh_client_common rem c (some msg)).2 ↔
      (d = "Disconnecting " ++ c.server_ip ∧ rem.isEmpty = false) := by
  unfold kill_ssh_client_common
  cases hr : rem.isEmpty <;>
    cases he : c.ev_initialized <;> cases hs : c.session_handle <;>
    simp [he, hs, hr, eq_comm]

lemma common_debug_none (rem : List SshClient) (c : SshClient) :
    Ev.debugMsg ("Disconnecting " ++ c.server_ip) ∈
      (kill_ssh_client_common rem c none).2 := by
  unfold kill_ssh_client_common
  cases he : c.ev_initialized <;> cases hs : c.session_handle <;> simp [he, hs]

lemma common_del (rem : List SshClient) (c : SshClient) (fmt : Option String) (j : Nat) :
    Ev.eventDel j ∈ (kill_ssh_client_common rem c fmt).2 ↔
      (j = c.id ∧ c.ev_initialized = true) := by
  unfold kill_ssh_client_common
  rcases fmt with _ | msg <;>
    cases hr : rem.isEmpty <;>
    cases he : c.ev_initialized <;> cases hs : c.session_handle <;>
    simp [he, hs, hr, eq_comm]

lemma common_sshFree (rem : List SshClient) (c : SshClient) (fmt : Option String) (j : Nat) :
    Ev.sshFree j ∈ (kill_ssh_client_common rem c fmt).2 ↔
      (j = c.id ∧ c.session_handle = true) := by
  unfold kill_ssh_client_common
  rcases fmt with _ | msg <;>
    cases hr : rem.isEmpty <;>
    cases he : c.ev_initialized <;> cases hs : c.session_handle <;>
    simp [he, hs, hr, eq_comm]

lemma common_no_timer (rem : List SshClient) (c : SshClient) (fmt : Option String) (j : Nat) :
    Ev.timerArm j ∉ (kill_ssh_client_common rem c fmt).2 := by
  unfold kill_ssh_client_common
  rcases fmt with _ | msg <;>
    cases hr : rem.isEmpty <;>
    cases he : c.ev_initialized <;> cases hs : c.session_handle <;>
    simp [he, hs, hr]

lemma kill_clients_eq (cl : List SshClient) (c : SshClient) (fmt : Option String) :
    (kill_ssh_client cl c fmt).1 = removeId cl c.id := rfl

lemma kill_evs_eq (cl : List SshClient) (c : SshClient) (fmt : Option String) :
    (kill_ssh_client cl c fmt).2 =
      Ev.removeFromList c.id ::
        (kill_ssh_client_common (removeId cl c.id) c fmt).2 ++ [Ev.freeClient c.id] := rfl

lemma reconnect_clients_eq (cl : List SshClient) (c : SshClient) (fmt : Option String) :
    (reconnect_ssh_client cl c fmt).1 = removeId cl c.id := rfl

lemma reconnect_evs_eq (cl : List SshClient) (c : SshClient) (fmt : Option String) :
    (reconnect_ssh_client cl c fmt).2.2 =
      Ev.removeFromList c.id :: (kill_ssh_client_common (removeId cl c.id) c fmt).2 := rfl

lemma kill_no_assert (cl : List SshClient) (c : SshClient) (fmt : Option String) (b : Bool) :
    Ev.assertCheck b ∉ (kill_ssh_client cl c fmt).2 := by
  rw [kill_evs_eq]
  intro h
  rcases List.mem_cons.mp h with h | h
  · exact Ev.noConfusion h
  · rcases List.mem_append.mp h with h | h
    · exact common_no_assert _ _ _ _ h
    · simp at h

lemma kill_free_mem (cl : List SshClient) (c : SshClient) (fmt : Option String) :
    Ev.freeClient c.id ∈ (kill_ssh_client cl c fmt).2 := by
  rw [kill_evs_eq]
  simp

lemma kill_status_none (cl : List SshClient) (c : SshClient) (s : String) :
    Ev.statusMessage s ∉ (kill_ssh_client cl c none).2 := by
  rw [kill_evs_eq]
  intro h
  rcases List.mem_cons.mp h with h | h
  · exact Ev.noConfusion h
  · rcases List.mem_append.mp h with h | h
    · exact common_status_none _ _ _ h
    · simp at h

lemma killSibling_clients (m : M) (k : SshClient) :
    (killSibling m k).clients = removeId m.clients k.id := rfl

lemma killSibling_cur (m : M) (k : SshClient) : (killSibling m k).cur = m.cur := rfl

lemma killSibling_cur_in_list (m : M) (k : SshClient) :
    (killSibling m k).cur_in_list = m.cur_in_list := rfl

lemma killSibling_evs (m : M) (k : SshClient) :
    (killSibling m k).evs = m.evs ++ (kill_ssh_client m.clients k none).2 := rfl

lemma emit_clients (m : M) (e : Ev) : (m.emit e).clients = m.clients := rfl

lemma emit_cur (m : M) (e : Ev) : (m.emit e).cur = m.cur := rfl

lemma emit_cur_in_list (m : M) (e : Ev) : (m.emit e).cur_in_list = m.cur_in_list := rfl

lemma emit_evs (m : M) (e : Ev) : (m.emit e).evs = m.evs ++ [e] := rfl

lemma complete_body_clients (S : List SshClient) :
    ∀ m : M,
    (S.foldl (fun acc k => killSibling (acc.emit (Ev.assertCheck (!k.has_encoder))) k) m).clients
      = S.foldl (fun cl k => removeId cl k.id) m.clients := by
  induction S with
  | nil => intro m; rfl
  | cons k S ih =>
      intro m
      simp only [List.foldl_cons, ih, killSibling_clients, emit_clients]

lemma complete_body_cur (S : List SshClient) :
    ∀ m : M,
    (S.foldl (fun acc k => killSibling (acc.emit (Ev.assertCheck (!k.has_encoder))) k) m).cur
      = m.cur := by
  induction S with
  | nil => intro m; rfl
  | cons k S ih =>
      intro m
      simp only [List.foldl_cons, ih, killSibling_cur, emit_cur]

lemma complete_body_cur_in_list (S : List SshClient) :
    ∀ m : M,
    (S.foldl (fun acc k => killSibling (acc.emit (Ev.assertCheck (!k.has_encoder))) k) m).cur_in_list
      = m.cur_in_list := by
  induction S with
  | nil => intro m; rfl
  | cons k S ih =>
      intro m
      simp only [List.foldl_cons, ih, killSibling_cur_in_list, emit_cur_in_list]

lemma complete_body_evs_mono (S : List SshClient) :
    ∀ (m : M) (e : Ev), e ∈ m.evs →
    e ∈ (S.foldl (fun acc k => killSibling (acc.emit (Ev.assertCheck (!k.has_encoder))) k) m).evs := by
  induction S with
  | nil => intro m e h; exact h
  | cons k S ih =>
      intro m e h
      rw [List.foldl_cons]
      refine ih _ _ ?_
      show e ∈ (killSibling (m.emit (Ev.assertCheck (!k.has_encoder))) k).evs
      rw [killSibling_evs, emit_evs]
      simp [h]

lemma complete_body_assert_mem (S : List SshClient) :
    ∀ (m : M) (k : SshClient), k ∈ S →
    Ev.assertCheck (!k.has_encoder) ∈
      (S.foldl (fun acc k => killSibling (acc.emit (Ev.assertCheck (!k.has_encoder))) k) m).evs := by
  induction S with
  | nil => intro m k hk; cases hk
  | cons x S ih =>
      intro m k hk
      rcases List.mem_cons.mp hk with h | h
      · subst h
        rw [List.foldl_cons]
        apply complete_body_evs_mono
        show Ev.assertCheck (!k.has_encoder) ∈
          (killSibling (m.emit (Ev.assertCheck (!k.has_encoder))) k).evs
        rw [killSibling_evs, emit_evs]
        simp
      · rw [List.foldl_cons]
        exact ih _ _ h

lemma complete_body_free_mem (S : List SshClient) :
    ∀ (m : M) (k : SshClient), k ∈ S →
    Ev.freeClient k.id ∈
      (S.foldl (fun acc k => killSibling (acc.emit (Ev.assertCheck (!k.has_encoder))) k) m).evs := by
  induction S with
  | nil => intro m k hk; cases hk
  | cons x S ih =>
      intro m k hk
      rcases List.mem_cons.mp hk with h | h
      · subst h
        rw [List.foldl_cons]
        apply complete_body_evs_mono
        show Ev.freeClient k.id ∈
          (killSibling (m.emit (Ev.assertCheck (!k.has_encoder))) k).evs
        rw [killSibling_evs, emit_evs]
        exact List.mem_append.mpr (Or.inr (kill_free_mem _ _ _))
      · rw [List.foldl_cons]
        exact ih _ _ h

lemma complete_body_status (S : List SshClient) :
    ∀ (m : M) (s : String),
    Ev.statusMessage s ∈
      (S.foldl (fun acc k => killSibling (acc.emit (Ev.assertCheck (!k.has_encoder))) k) m).evs →
    Ev.statusMessage s ∈ m.evs := by
  induction S with
  | nil => intro m s h; exact h
  | cons x S ih =>
      intro m s h
      rw [List.foldl_cons] at h
      have h2 := ih _ _ h
      simp only [killSibling_evs, emit_evs, List.mem_append, List.mem_singleton] at h2
      rcases h2 with (h2 | h2) | h2
      · exact h2
      · cases h2
      · exact absurd h2 (kill_status_none _ _ _)

lemma complete_body_assert_shape (S : List SshClient) :
    ∀ (m : M) (b : Bool),
    Ev.assertCheck b ∈
      (S.foldl (fun acc k => killSibling (acc.emit (Ev.assertCheck (!k.has_encoder))) k) m).evs →
    Ev.assertCheck b ∈ m.evs ∨ ∃ k ∈ S, b = !k.has_encoder := by
  induction S with
  | nil => intro m b h; exact Or.inl h
  | cons x S ih =>
      intro m b h
      rw [List.foldl_cons] at h
      rcases ih _ _ h with h2 | ⟨k, hk, hb⟩
      · simp only [killSibling_evs, emit_evs, List.mem_append, List.mem_singleton] at h2
        rcases h2 with (h2 | h2) | h2
        · exact Or.inl h2
        · right
          refine ⟨x, by simp, ?_⟩
          injection h2 with h3
        · exact absurd h2 (kill_no_assert _ _ _ _)
      · exact Or.inr ⟨k, by simp [hk], hb⟩

lemma foldl_removeId (S : List SshClient) :
    ∀ l : List SshClient,
    S.foldl (fun cl k => removeId cl k.id) l
      = l.filter (fun c => S.all (fun k => c.id != k.id)) := by
  induction S with
  | nil => intro l; simp
  | cons k S ih =>
      intro l
      rw [List.foldl_cons, ih]
      rw [show removeId l k.id = l.filter (fun c => c.id != k.id) from rfl]
      rw [List.filter_filter]
      apply List.filter_congr
      intro x _
      simp [Bool.and_comm]

lemma complete_clients (m : M) :
    (on_ssh_auth_server_complete m).clients
      = m.clients.filter (fun k => k.id == m.cur.id) := by
  unfold on_ssh_auth_server_complete
  rw [complete_body_clients, foldl_removeId]
  apply List.filter_congr
  intro c hc
  by_cases h : c.id = m.cur.id
  · simp only [h, beq_self_eq_true]
    rw [List.all_eq_true]
    intro k hk
    have hkne : k.id ≠ m.cur.id := by simpa using (List.mem_filter.mp hk).2
    simp only [bne_iff_ne, ne_eq]
    omega
  · have hq : (c.id == m.cur.id) = false := by simpa using h
    rw [hq, Bool.eq_false_iff]
    intro hall
    rw [List.all_eq_true] at hall
    have := hall c (List.mem_filter.mpr ⟨hc, by simpa using h⟩)
    simp at this

lemma complete_cur (m : M) : (on_ssh_auth_server_complete m).cur = m.cur := by
  unfold on_ssh_auth_server_complete
  rw [complete_body_cur]

lemma complete_cur_in_list (m : M) :
    (on_ssh_auth_server_complete m).cur_in_list = m.cur_in_list := by
  unfold on_ssh_auth_server_complete
  rw [complete_body_cur_in_list]

lemma complete_assert_mem (m : M) (k : SshClient) (hk : k ∈ m.clients)
    (hne : k.id ≠ m.cur.id) :
    Ev.assertCheck (!k.has_encoder) ∈ (on_ssh_auth_server_complete m).evs := by
  unfold on_ssh_auth_server_complete
  apply complete_body_assert_mem
  exact List.mem_filter.mpr ⟨hk, by simpa using hne⟩

lemma complete_free_mem (m : M) (k : SshClient) (hk : k ∈ m.clients)
    (hne : k.id ≠ m.cur.id) :
    Ev.freeClient k.id ∈ (on_ssh_auth_server_complete m).evs := by
  unfold on_ssh_auth_server_complete
  apply complete_body_free_mem
  exact List.mem_filter.mpr ⟨hk, by simpa using hne⟩

lemma complete_status (m : M) (s : String)
    (h : Ev.statusMessage s ∈ (on_ssh_auth_server_complete m).evs) :
    Ev.statusMessage s ∈ m.evs := by
  unfold on_ssh_auth_server_complete at h
  exact complete_body_status _ _ _ h

lemma complete_assert_shape (m : M) (b : Bool)
    (h : Ev.assertCheck b ∈ (on_ssh_auth_server_complete m).evs) :
    Ev.assertCheck b ∈ m.evs ∨ ∃ k ∈ m.clients, b = !k.has_encoder := by
  unfold on_ssh_auth_server_complete at h
  rcases complete_body_assert_shape _ _ _ h with h2 | ⟨k, hk, hb⟩
  · exact Or.inl h2
  · exact Or.inr ⟨k, (List.mem_filter.mp hk).1, hb⟩

lemma handlerOK_refl (m : M) : handlerOK m m :=
  ⟨List.Sublist.refl _, rfl, rfl, fun _ _ h => Or.inl h⟩

lemma handlerOK_trans {m1 m2 m3 : M} (h12 : handlerOK m1 m2) (h23 : handlerOK m2 m3) :
    handlerOK m1 m3 := by
  obtain ⟨s12, i12, e12, a12⟩ := h12
  obtain ⟨s23, i23, e23, a23⟩ := h23
  refine ⟨s23.trans s12, i23.trans i12, e23.trans e12, ?_⟩
  intro hall b hb
  have hall2 : ∀ c ∈ m2.clients, c.has_encoder = false :=
    fun c hc => hall c (s12.mem hc)
  rcases a23 hall2 b hb with h | h
  · exact a12 hall b h
  · exact Or.inr h

lemma handlerOK_of_parts {m m' : M} (hcl : m'.clients = m.clients)
    (hid : m'.cur.id = m.cur.id) (henc : m'.cur.has_encoder = m.cur.has_encoder)
    (hevs : ∀ b, Ev.assertCheck b ∈ m'.evs → Ev.assertCheck b ∈ m.evs) :
    handlerOK m m' := by
  refine ⟨hcl ▸ List.Sublist.refl _, hid, henc, ?_⟩
  intro _ b hb
  exact Or.inl (hevs b hb)

lemma killCur_clients (m : M) (fmt : Option String) :
    (killCur m fmt).clients = removeId m.clients m.cur.id := rfl

lemma killCur_cur (m : M) (fmt : Option String) :
    (killCur m fmt).cur
      = (kill_ssh_client_common (removeId m.clients m.cur.id) m.cur fmt).1 := rfl

lemma killCur_evs (m : M) (fmt : Option String) :
    (killCur m fmt).evs
      = m.evs ++ Ev.removeFromList m.cur.id ::
          (kill_ssh_client_common (removeId m.clients m.cur.id) m.cur fmt).2
          ++ [Ev.freeClient m.cur.id] := rfl

lemma reconnectCur_clients (m : M) (fmt : Option String) :
    (reconnectCur m fmt).clients = removeId m.clients m.cur.id := rfl

lemma reconnectCur_cur (m : M) (fmt : Option String) :
    (reconnectCur m fmt).cur
      = (kill_ssh_client_common (removeId m.clients m.cur.id) m.cur fmt).1 := rfl

lemma reconnectCur_evs (m : M) (fmt : Option String) :
    (reconnectCur m fmt).evs
      = m.evs ++ Ev.removeFromList m.cur.id ::
          (kill_ssh_client_common (removeId m.clients m.cur.id) m.cur fmt).2 := rfl

lemma handlerOK_killCur (m : M) (fmt : Option String) : handlerOK m (killCur m fmt) := by
  refine ⟨removeId_sublist _ _, ?_, ?_, ?_⟩
  · rw [killCur_cur, common_fst]
  · rw [killCur_cur, common_fst]
  · intro _ b hb
    rw [killCur_evs] at hb
    rcases List.mem_append.mp hb with h | h
    · rcases List.mem_append.mp h with h | h
      · exact Or.inl h
      · exfalso
        rcases List.mem_cons.mp h with h | h
        · exact Ev.noConfusion h
        · exact common_no_assert _ _ _ _ h
    · exfalso
      simp at h

lemma handlerOK_reconnectCur (m : M) (fmt : Option String) :
    handlerOK m (reconnectCur m fmt) := by
  refine ⟨removeId_sublist _ _, ?_, ?_, ?_⟩
  · rw [reconnectCur_cur, common_fst]
  · rw [reconnectCur_cur, common_fst]
  · intro _ b hb
    rw [reconnectCur_evs] at hb
    rcases List.mem_append.mp hb with h | h
    · exact Or.inl h
    · exfalso
      rcases List.mem_cons.mp h with h | h
      · exact Ev.noConfusion h
      · exact common_no_assert _ _ _ _ h

lemma handlerOK_complete (m : M) : handlerOK m (on_ssh_auth_server_complete m) := by
  refine ⟨?_, by rw [complete_cur], by rw [complete_cur], ?_⟩
  · rw [complete_clients]
    exact List.filter_sublist _
  · intro hall b hb
    rcases complete_assert_shape _ _ hb with h | ⟨k, hk, hbk⟩
    · exact Or.inl h
    · right
      rw [hbk, hall k hk]
      rfl


lemma handlerOK_emit_safe (m : M) (e : Ev) (he : ∀ b, e ≠ Ev.assertCheck b) :
    handlerOK m (m.emit e) := by
  refine handlerOK_of_parts rfl rfl rfl ?_
  intro b hb
  rw [emit_evs] at hb
  rcases List.mem_append.mp hb with h | h
  · exact h
  · exact absurd (List.mem_singleton.mp h).symm (he b)

lemma handlerOK_read_loop (env : Env) (rs : List Int) :
    ∀ m : M, handlerOK m (read_channel_loop env m rs) := by
  induction rs with
  | nil => intro m; exact handlerOK_refl m
  | cons r rs ih =>
      intro m
      simp only [read_channel_loop]
      split
      · exact handlerOK_reconnectCur m _
      · split
        · exact handlerOK_refl m
        · exact handlerOK_trans
            (handlerOK_emit_safe m _ (fun b h => Ev.noConfusion h)) (ih _)

lemma handlerOK_ready (env : Env) (m : M) : handlerOK m (handle_ready env m) := by
  unfold handle_ready read_channel
  split
  · exact handlerOK_trans (handlerOK_read_loop env _ m) (handlerOK_reconnectCur _ _)
  · exact handlerOK_read_loop env _ m

lemma handlerOK_bootstrap (env : Env) (m : M) : handlerOK m (handle_bootstrap env m) := by
  unfold handle_bootstrap
  cases h : env.subsystem_rc with
  | SSH_AGAIN => exact handlerOK_refl m
  | SSH_ERROR => exact handlerOK_reconnectCur m _
  | SSH_OK =>
      refine handlerOK_trans ?_ (handlerOK_ready env _)
      refine handlerOK_of_parts rfl rfl rfl ?_
      intro b hb
      simp only [M.emit, List.mem_append, List.mem_singleton] at hb
      rcases hb with ((((h | h) | h) | h) | h) <;> first
        | exact h
        | exact absurd h (by intro hh; exact Ev.noConfusion hh)

lemma handlerOK_open_channel (env : Env) (m : M) :
    handlerOK m (handle_open_channel env m) := by
  unfold handle_open_channel
  cases h : env.open_channel_rc with
  | SSH_AGAIN => exact handlerOK_refl m
  | SSH_ERROR => exact handlerOK_reconnectCur m _
  | SSH_OK =>
      refine handlerOK_trans ?_ (handlerOK_bootstrap env _)
      refine handlerOK_of_parts rfl rfl rfl ?_
      intro b hb
      simp only [M.emit, List.mem_append, List.mem_singleton] at hb
      rcases hb with h | h
      · exact h
      · exact absurd h (by intro hh; exact Ev.noConfusion hh)

lemma handlerOK_request (m : M) : handlerOK m (request_passphrase m) := by
  unfold request_passphrase
  split
  · exact handlerOK_refl m
  · refine handlerOK_of_parts rfl rfl rfl ?_
    intro b hb
    rcases List.mem_append.mp hb with h | h
    · exact h
    · exact absurd (List.mem_singleton.mp h) (by intro hh; exact Ev.noConfusion hh)

lemma handlerOK_pre (env : Env) (m : M) : handlerOK m (auth_client_pre env m) := by
  unfold auth_client_pre
  split <;>
  · refine handlerOK_of_parts rfl rfl rfl ?_
    intro b hb
    simp only [passphrase_callback, M.emit, List.mem_append, List.mem_singleton] at hb
    rcases hb with h | h
    · exact h
    · exact absurd h (by intro hh; exact Ev.noConfusion hh)

lemma handlerOK_hint (m : M) : handlerOK m (auth_denied_hint m) := by
  unfold auth_denied_hint
  split
  · refine handlerOK_emit_safe _ _ ?_
    intro b h
    exact Ev.noConfusion h
  · exact handlerOK_refl _

lemma handlerOK_denied (m : M) : handlerOK m (auth_denied_action m) := by
  have h1 : handlerOK m (if m.need_passphrase then request_passphrase m
      else killCur m (some "SSH keys not found. Run \x27ssh-keygen\x27 to create keys and try again.")) := by
    split
    · exact handlerOK_request m
    · exact handlerOK_killCur m _
  unfold auth_denied_action
  exact handlerOK_trans h1 (handlerOK_hint _)

lemma handlerOK_auth_client (env : Env) (m : M) :
    handlerOK m (handle_auth_client env m) := by
  unfold handle_auth_client
  cases h : env.auth_rc with
  | SSH_AUTH_AGAIN => exact handlerOK_pre env m
  | SSH_AUTH_PARTIAL => exact handlerOK_trans (handlerOK_pre env m) (handlerOK_denied _)
  | SSH_AUTH_INFO => exact handlerOK_trans (handlerOK_pre env m) (handlerOK_denied _)
  | SSH_AUTH_DENIED => exact handlerOK_trans (handlerOK_pre env m) (handlerOK_denied _)
  | SSH_AUTH_ERROR =>
      exact handlerOK_trans (handlerOK_pre env m) (handlerOK_reconnectCur _ _)
  | SSH_AUTH_SUCCESS =>
      refine handlerOK_trans (handlerOK_pre env m) ?_
      refine handlerOK_trans ?_ (handlerOK_open_channel env _)
      refine handlerOK_of_parts rfl rfl rfl ?_
      intro b hb
      simp only [M.emit, List.mem_append, List.mem_singleton] at hb
      rcases hb with h | h
      · exact h
      · exact absurd h (by intro hh; exact Ev.noConfusion hh)

lemma handlerOK_auth_server (cfg : Config) (env : Env) (m : M) :
    handlerOK m (handle_auth_server cfg env m) := by
  unfold handle_auth_server
  split
  · refine handlerOK_emit_safe m _ ?_
    intro b h
    exact Ev.noConfusion h
  · split
    · exact handlerOK_killCur m _
    · split
      · refine handlerOK_emit_safe m _ ?_
        intro b h
        exact Ev.noConfusion h
      · split
        · exact handlerOK_killCur m _
        · refine handlerOK_trans
            (handlerOK_emit_safe m (Ev.debugMsg ("Connected to " ++ m.cur.server_ip))
              (fun b h => Ev.noConfusion h)) ?_
          refine handlerOK_trans (handlerOK_complete _) ?_
          refine handlerOK_trans ?_ (handlerOK_auth_client env _)
          exact handlerOK_of_parts rfl rfl rfl (fun b hb => hb)

lemma handlerOK_register (m : M) : handlerOK m (register_session_fd_event m) := by
  unfold register_session_fd_event
  split
  · exact handlerOK_refl m
  · exact handlerOK_of_parts rfl rfl rfl (fun b hb => hb)

lemma handlerOK_connect (cfg : Config) (env : Env) (m : M) :
    handlerOK m (handle_connect cfg env m) := by
  unfold handle_connect
  cases h : env.connect_rc with
  | SSH_AGAIN => exact handlerOK_register m
  | SSH_ERROR => exact handlerOK_reconnectCur m _
  | SSH_OK =>
      refine handlerOK_trans (handlerOK_register m) ?_
      refine handlerOK_trans ?_ (handlerOK_auth_server cfg env _)
      refine handlerOK_of_parts rfl rfl rfl ?_
      intro b hb
      simp only [M.emit, List.mem_append, List.mem_singleton] at hb
      rcases hb with h | h
      · exact h
      · exact absurd h (by intro hh; exact Ev.noConfusion hh)

lemma handlerOK_init (cfg : Config) (env : Env) (m : M) :
    handlerOK m (handle_init cfg env m) := by
  unfold handle_init
  split
  · refine handlerOK_emit_safe m _ ?_
    intro b h
    exact Ev.noConfusion h
  · split
    · refine handlerOK_of_parts rfl rfl rfl ?_
      intro b hb
      rcases List.mem_append.mp hb with h | h
      · exact h
      · exact absurd (List.mem_singleton.mp h) (by intro hh; exact Ev.noConfusion hh)
    · refine handlerOK_trans ?_ (handlerOK_connect cfg env _)
      exact handlerOK_of_parts rfl rfl rfl (fun b hb => hb)

lemma handlerOK_step (cfg : Config) (env : Env) (m : M) :
    handlerOK m (step_m cfg env m) := by
  unfold step_m
  cases h : m.cur.state with
  | SSH_NONE => exact handlerOK_refl m
  | SSH_INIT => exact handlerOK_init cfg env m
  | SSH_CONNECT => exact handlerOK_connect cfg env m
  | SSH_AUTH_SERVER => exact handlerOK_auth_server cfg env m
  | SSH_AUTH_CLIENT => exact handlerOK_auth_client env m
  | SSH_OPEN_CHANNEL => exact handlerOK_open_channel env m
  | SSH_BOOTSTRAP => exact handlerOK_bootstrap env m
  | SSH_READY => exact handlerOK_ready env m

lemma register_clients (m : M) : (register_session_fd_event m).clients = m.clients := by
  unfold register_session_fd_event
  split <;> rfl

lemma register_cur_id (m : M) : (register_session_fd_event m).cur.id = m.cur.id := by
  unfold register_session_fd_event
  split <;> rfl

lemma register_cur_state (m : M) :
    (register_session_fd_event m).cur.state = m.cur.state := by
  unfold register_session_fd_event
  split <;> rfl

lemma notPastOK_pre {m m2 r : M} (h2 : notPastOK m2 r)
    (hcl : m2.clients = m.clients) (hid : m2.cur.id = m.cur.id) : notPastOK m r := by
  rcases h2 with ⟨hs, hp⟩ | hr
  · exact Or.inl ⟨hcl ▸ hs, hp⟩
  · exact Or.inr (fun k hk => (hr k hk).trans hid)

lemma np_auth_server (cfg : Config) (env : Env) (m : M)
    (h : statePast m.cur.state = false) :
    notPastOK m (handle_auth_server cfg env m) := by
  unfold handle_auth_server
  split
  · exact Or.inl ⟨List.Sublist.refl _, h⟩
  · split
    · left
      refine ⟨removeId_sublist _ _, ?_⟩
      simp [killCur_cur, common_fst, statePast]
    · split
      · exact Or.inl ⟨List.Sublist.refl _, h⟩
      · split
        · left
          refine ⟨removeId_sublist _ _, ?_⟩
          simp [killCur_cur, common_fst, statePast]
        · right
          intro k hk
          have hk2 : k ∈ (handle_auth_client env
              { on_ssh_auth_server_complete
                  (m.emit (Ev.debugMsg ("Connected to " ++ m.cur.server_ip))) with
                cur := { (on_ssh_auth_server_complete
                    (m.emit (Ev.debugMsg ("Connected to " ++ m.cur.server_ip)))).cur with
                  state := SshState.SSH_AUTH_CLIENT } }).clients := hk
          have hk3 := (handlerOK_auth_client env _).1.mem hk2
          have hk4 : k ∈ (on_ssh_auth_server_complete
              (m.emit (Ev.debugMsg ("Connected to " ++ m.cur.server_ip)))).clients := hk3
          rw [complete_clients] at hk4
          have := (List.mem_filter.mp hk4).2
          simpa using this

lemma np_connect (cfg : Config) (env : Env) (m : M)
    (h : statePast m.cur.state = false) :
    notPastOK m (handle_connect cfg env m) := by
  unfold handle_connect
  cases hrc : env.connect_rc with
  | SSH_AGAIN =>
      left
      refine ⟨?_, ?_⟩
      · rw [register_clients]
      · rw [register_cur_state]
        exact h
  | SSH_ERROR =>
      left
      refine ⟨removeId_sublist _ _, ?_⟩
      simp [reconnectCur_cur, common_fst, statePast]
  | SSH_OK =>
      refine notPastOK_pre (np_auth_server cfg env _ rfl) ?_ ?_
      · show ((register_session_fd_event m).emit
          (Ev.debugMsg ("Establishing connection to " ++ (register_session_fd_event m).cur.server_ip))).clients
          = m.clients
        rw [emit_clients, register_clients]
      · show ((register_session_fd_event m).emit
          (Ev.debugMsg ("Establishing connection to " ++ (register_session_fd_event m).cur.server_ip))).cur.id
          = m.cur.id
        rw [emit_cur, register_cur_id]

lemma np_init (cfg : Config) (env : Env) (m : M)
    (h : statePast m.cur.state = false) :
    notPastOK m (handle_init cfg env m) := by
  unfold handle_init
  split
  · exact Or.inl ⟨List.Sublist.refl _, h⟩
  · split
    · exact Or.inl ⟨List.Sublist.refl _, h⟩
    · exact notPastOK_pre (np_connect cfg env _ rfl) rfl rfl

lemma np_step (cfg : Config) (env : Env) (m : M)
    (h : statePast m.cur.state = false) :
    notPastOK m (step_m cfg env m) := by
  unfold step_m
  cases h2 : m.cur.state with
  | SSH_NONE => exact Or.inl ⟨List.Sublist.refl _, h⟩
  | SSH_INIT => exact np_init cfg env m h
  | SSH_CONNECT => exact np_connect cfg env m h
  | SSH_AUTH_SERVER => exact np_auth_server cfg env m h
  | SSH_AUTH_CLIENT => rw [h2] at h; exact absurd h (by simp [statePast])
  | SSH_OPEN_CHANNEL => rw [h2] at h; exact absurd h (by simp [statePast])
  | SSH_BOOTSTRAP => rw [h2] at h; exact absurd h (by simp [statePast])
  | SSH_READY => rw [h2] at h; exact absurd h (by simp [statePast])

lemma findClient_mem {l : List SshClient} {i : Nat} {c : SshClient}
    (h : findClient l i = some c) : c ∈ l ∧ c.id = i := by
  unfold findClient at h
  exact ⟨List.mem_of_find?_eq_some h, by simpa using List.find?_some h⟩

lemma finishM_clients (m : M) (cid : Nat) :
    (finishM m cid).1.clients = if m.cur_in_list
      then m.clients.map (fun k => if k.id == cid then m.cur else k)
      else m.clients := rfl

lemma finishM_evs (m : M) (cid : Nat) : (finishM m cid).2 = m.evs := rfl

lemma writeback_ids (m : M) (cid : Nat) (hid : m.cur.id = cid) :
    ((m.clients.map (fun k => if k.id == cid then m.cur else k)).map (fun c => c.id))
      = m.clients.map (fun c => c.id) := by
  rw [List.map_map]
  apply List.map_congr_left
  intro a _
  by_cases h : a.id = cid
  · simp only [Function.comp_apply, beq_iff_eq, h, if_pos]
    first
      | rfl
      | rw [hid]
  · simp [Function.comp, beq_eq_false_iff_ne.mpr h]

lemma writeback_mem (m : M) (cid : Nat) (x : SshClient)
    (hx : x ∈ m.clients.map (fun k => if k.id == cid then m.cur else k)) :
    x ∈ m.clients ∨ x = m.cur := by
  rcases List.mem_map.mp hx with ⟨a, ha, hax⟩
  by_cases h : (a.id == cid) = true
  · rw [if_pos h] at hax
    exact Or.inr hax.symm
  · rw [if_neg h] at hax
    exact Or.inl (hax ▸ ha)

lemma length_le_one_of_nodup_const {l : List Nat} {i : Nat} (hnd : l.Nodup)
    (hall : ∀ x ∈ l, x = i) : l.length ≤ 1 := by
  match l, hall with
  | [], _ => simp
  | [x], _ => simp
  | x :: y :: rest, hall =>
      exfalso
      have hx := hall x (by simp)
      have hy := hall y (by simp)
      simp [hx, hy] at hnd

lemma step_SessInv (cfg : Config) (env : Env) (s : TmateSession) (cid : Nat)
    (hinv : SessInv s) : SessInv (on_ssh_client_event cfg env s cid).1 := by
  obtain ⟨hnd, hdisj⟩ := hinv
  unfold on_ssh_client_event
  cases hf : findClient s.clients cid with
  | none => exact ⟨hnd, hdisj⟩
  | some c =>
      obtain ⟨hmemc, hidc⟩ := findClient_mem hf
      have hok := handlerOK_step cfg env (initM s c)
      obtain ⟨hsub, hid, henc, _⟩ := hok
      have hsub' : (step_m cfg env (initM s c)).clients.Sublist s.clients := hsub
      have hid' : (step_m cfg env (initM s c)).cur.id = cid := by
        rw [hid]
        exact hidc
      have hnd' : ((step_m cfg env (initM s c)).clients.map (fun c => c.id)).Nodup :=
        hnd.sublist (hsub'.map _)
      constructor
      · rw [finishM_clients]
        split
        · rw [writeback_ids _ _ hid']
          exact hnd'
        · exact hnd'
      · rcases hdisj with hnp | hlen
        · have hcstate : statePast (initM s c).cur.state = false := hnp c hmemc
          rcases np_step cfg env (initM s c) hcstate with ⟨hs2, hp⟩ | hr
          · left
            intro x hx
            rw [finishM_clients] at hx
            by_cases hcl : (step_m cfg env (initM s c)).cur_in_list
            · rw [if_pos hcl] at hx
              rcases writeback_mem _ _ _ hx with hx2 | hx2
              · exact hnp x (hsub'.mem hx2)
              · rw [hx2]
                exact hp
            · rw [if_neg hcl] at hx
              exact hnp x (hsub'.mem hx)
          · right
            have hall : ∀ j ∈ (step_m cfg env (initM s c)).clients.map (fun c => c.id),
                j = cid := by
              intro j hj
              rcases List.mem_map.mp hj with ⟨a, ha, haj⟩
              rw [← haj]
              have := hr a ha
              rw [this]
              exact hidc
            have hlen1 : (step_m cfg env (initM s c)).clients.length ≤ 1 := by
              have := length_le_one_of_nodup_const hnd' hall
              simpa using this
            rw [finishM_clients]
            split
            · simpa using hlen1
            · exact hlen1
        · right
          rw [finishM_clients]
          have hlen1 : (step_m cfg env (initM s c)).clients.length ≤ 1 :=
            le_trans hsub'.length_le hlen
          split
          · simpa using hlen1
          · exact hlen1

lemma run_SessInv (cfg : Config) (evts : List (Nat × Env)) :
    ∀ s : TmateSession, SessInv s → SessInv (run_events cfg evts s).1 := by
  induction evts with
  | nil => intro s h; exact h
  | cons p rest ih =>
      intro s h
      exact ih _ (step_SessInv cfg p.2 s p.1 h)

/-- Candidates with no encoder flag set. -/
def EncInv (s : TmateSession) : Prop := ∀ c ∈ s.clients, c.has_encoder = false

lemma step_EncInv (cfg : Config) (env : Env) (s : TmateSession) (cid : Nat)
    (h : EncInv s) :
    EncInv (on_ssh_client_event cfg env s cid).1 ∧
      (∀ b, Ev.assertCheck b ∈ (on_ssh_client_event cfg env s cid).2 → b = true) := by
  unfold on_ssh_client_event
  cases hf : findClient s.clients cid with
  | none =>
      refine ⟨h, ?_⟩
      intro b hb
      simp at hb
  | some c =>
      obtain ⟨hmemc, hidc⟩ := findClient_mem hf
      obtain ⟨hsub, hid, henc, hassert⟩ := handlerOK_step cfg env (initM s c)
      have hsub' : (step_m cfg env (initM s c)).clients.Sublist s.clients := hsub
      have hcurenc : (step_m cfg env (initM s c)).cur.has_encoder = false := by
        rw [henc]
        exact h c hmemc
      constructor
      · intro x hx
        rw [finishM_clients] at hx
        by_cases hcl : (step_m cfg env (initM s c)).cur_in_list
        · rw [if_pos hcl] at hx
          rcases writeback_mem _ _ _ hx with hx2 | hx2
          · exact h x (hsub'.mem hx2)
          · rw [hx2]
            exact hcurenc
        · rw [if_neg hcl] at hx
          exact h x (hsub'.mem hx)
      · intro b hb
        rw [finishM_evs] at hb
        have hall : ∀ c2 ∈ (initM s c).clients, c2.has_encoder = false := h
        rcases hassert hall b hb with h2 | h2
        · simp [initM] at h2
        · exact h2

lemma run_EncInv (cfg : Config) (evts : List (Nat × Env)) :
    ∀ s : TmateSession, EncInv s →
      EncInv (run_events cfg evts s).1 ∧
        (∀ b, Ev.assertCheck b ∈ (run_events cfg evts s).2 → b = true) := by
  induction evts with
  | nil =>
      intro s h
      refine ⟨h, ?_⟩
      intro b hb
      simp [run_events] at hb
  | cons p rest ih =>
      intro s h
      obtain ⟨h1, h2⟩ := step_EncInv cfg p.2 s p.1 h
      obtain ⟨h3, h4⟩ := ih _ h1
      refine ⟨h3, ?_⟩
      intro b hb
      simp only [run_events, List.mem_append] at hb
      rcases hb with hb | hb
      · exact h2 b hb
      · exact h4 b hb

lemma kill_status_some (cl : List SshClient) (c : SshClient) (msg s : String) :
    Ev.statusMessage s ∈ (kill_ssh_client cl c (some msg)).2 ↔
      (s = msg ∧ (removeId cl c.id).isEmpty = true) := by
  rw [kill_evs_eq]
  constructor
  · intro h
    rcases List.mem_cons.mp h with h | h
    · cases h
    · rcases List.mem_append.mp h with h | h
      · exact (common_status_some _ _ _ _).mp h
      · simp at h
  · intro h
    apply List.mem_cons.mpr
    right
    apply List.mem_append.mpr
    left
    exact (common_status_some _ _ _ _).mpr h

lemma reconnect_status_some (cl : List SshClient) (c : SshClient) (msg s : String) :
    Ev.statusMessage s ∈ (reconnect_ssh_client cl c (some msg)).2.2 ↔
      (s = msg ∧ (removeId cl c.id).isEmpty = true) := by
  rw [reconnect_evs_eq]
  constructor
  · intro h
    rcases List.mem_cons.mp h with h | h
    · cases h
    · exact (common_status_some _ _ _ _).mp h
  · intro h
    apply List.mem_cons.mpr
    right
    exact (common_status_some _ _ _ _).mpr h

lemma reconnect_status_none (cl : List SshClient) (c : SshClient) (s : String) :
    Ev.statusMessage s ∉ (reconnect_ssh_client cl c none).2.2 := by
  rw [reconnect_evs_eq]
  intro h
  rcases List.mem_cons.mp h with h | h
  · cases h
  · exact common_status_none _ _ _ h

lemma kill_debug_some (cl : List SshClient) (c : SshClient) (msg : String) :
    Ev.debugMsg ("Disconnecting " ++ c.server_ip) ∈ (kill_ssh_client cl c (some msg)).2 ↔
      (removeId cl c.id).isEmpty = false := by
  rw [kill_evs_eq]
  constructor
  · intro h
    rcases List.mem_cons.mp h with h | h
    · cases h
    · rcases List.mem_append.mp h with h | h
      · exact ((common_debug_some _ _ _ _).mp h).2
      · simp at h
  · intro h
    apply List.mem_cons.mpr
    right
    apply List.mem_append.mpr
    left
    exact (common_debug_some _ _ _ _).mpr ⟨rfl, h⟩

lemma reconnect_debug_some (cl : List SshClient) (c : SshClient) (msg : String) :
    Ev.debugMsg ("Disconnecting " ++ c.server_ip) ∈ (reconnect_ssh_client cl c (some msg)).2.2 ↔
      (removeId cl c.id).isEmpty = false := by
  rw [reconnect_evs_eq]
  constructor
  · intro h
    rcases List.mem_cons.mp h with h | h
    · cases h
    · exact ((common_debug_some _ _ _ _).mp h).2
  · intro h
    apply List.mem_cons.mpr
    right
    exact (common_debug_some _ _ _ _).mpr ⟨rfl, h⟩

lemma kill_debug_none (cl : List SshClient) (c : SshClient) :
    Ev.debugMsg ("Disconnecting " ++ c.server_ip) ∈ (kill_ssh_client cl c none).2 := by
  rw [kill_evs_eq]
  apply List.mem_cons.mpr
  right
  apply List.mem_append.mpr
  left
  exact common_debug_none _ _

lemma reconnect_debug_none (cl : List SshClient) (c : SshClient) :
    Ev.debugMsg ("Disconnecting " ++ c.server_ip) ∈ (reconnect_ssh_client cl c none).2.2 := by
  rw [reconnect_evs_eq]
  apply List.mem_cons.mpr
  right
  exact common_debug_none _ _

/-- C7: on both teardown paths, a supplied failure message is surfaced to the
user exactly when the candidate list is empty after the failing candidate
was removed; with siblings remaining, or with no message supplied, only
the debug-level disconnect log is produced. -/
theorem C7_message_surfacing_policy :
    ∀ (clients : List SshClient) (c : SshClient) (msg s : String),
      (Ev.statusMessage s ∈ (kill_ssh_client clients c (some msg)).2 ↔
        (s = msg ∧ (removeId clients c.id).isEmpty = true)) ∧
      (Ev.statusMessage s ∈ (reconnect_ssh_client clients c (some msg)).2.2 ↔
        (s = msg ∧ (removeId clients c.id).isEmpty = true)) ∧
      (Ev.statusMessage s ∉ (kill_ssh_client clients c none).2) ∧
      (Ev.statusMessage s ∉ (reconnect_ssh_client clients c none).2.2) ∧
      (Ev.debugMsg ("Disconnecting " ++ c.server_ip) ∈ (kill_ssh_client clients c (some msg)).2 ↔
        (removeId clients c.id).isEmpty = false) ∧
      (Ev.debugMsg ("Disconnecting " ++ c.server_ip) ∈ (reconnect_ssh_client clients c (some msg)).2.2 ↔
        (removeId clients c.id).isEmpty = false) ∧
      (Ev.debugMsg ("Disconnecting " ++ c.server_ip) ∈ (kill_ssh_client clients c none).2) ∧
      (Ev.debugMsg ("Disconnecting " ++ c.server_ip) ∈ (reconnect_ssh_client clients c none).2.2) := by
  intro clients c msg s
  exact ⟨kill_status_some clients c msg s, reconnect_status_some clients c msg s,
    kill_status_none clients c s, reconnect_status_none clients c s,
    kill_debug_some clients c msg, reconnect_debug_some clients c msg,
    kill_debug_none clients c, reconnect_debug_none clients c⟩

/-- C8: kill and reconnect perform the identical teardown (removal from the
session's list, readiness-event cancellation, joint release of the session
and channel handles, state set to SSH_NONE); kill additionally frees the
candidate struct, and reconnect arms no retry timer. -/
theorem C8_kill_reconnect_equivalence :
    ∀ (clients : List SshClient) (c : SshClient) (fmt : Option String),
      (kill_ssh_client clients c fmt).1 = (reconnect_ssh_client clients c fmt).1 ∧
      (kill_ssh_client clients c fmt).2
        = (reconnect_ssh_client clients c fmt).2.2 ++ [Ev.freeClient c.id] ∧
      (reconnect_ssh_client clients c fmt).1 = removeId clients c.id ∧
      (reconnect_ssh_client clients c fmt).2.1.state = SshState.SSH_NONE ∧
      (reconnect_ssh_client clients c fmt).2.1.session_handle = false ∧
      (reconnect_ssh_client clients c fmt).2.1.channel_handle
        = (!c.session_handle && c.channel_handle) ∧
      (Ev.eventDel c.id ∈ (reconnect_ssh_client clients c fmt).2.2 ↔ c.ev_initialized = true) ∧
      (Ev.sshFree c.id ∈ (reconnect_ssh_client clients c fmt).2.2 ↔ c.session_handle = true) ∧
      (∀ j, Ev.timerArm j ∉ (reconnect_ssh_client clients c fmt).2.2) := by
  intro clients c fmt
  refine ⟨rfl, ?_, rfl, ?_, ?_, ?_, ?_, ?_, ?_⟩
  · rw [kill_evs_eq, reconnect_evs_eq]
  · show (kill_ssh_client_common (removeId clients c.id) c fmt).1.state = SshState.SSH_NONE
    rw [common_fst]
  · show (kill_ssh_client_common (removeId clients c.id) c fmt).1.session_handle = false
    rw [common_fst]
  · show (kill_ssh_client_common (removeId clients c.id) c fmt).1.channel_handle
      = (!c.session_handle && c.channel_handle)
    rw [common_fst]
  · rw [reconnect_evs_eq]
    constructor
    · intro h
      rcases List.mem_cons.mp h with h | h
      · cases h
      · exact ((common_del _ _ _ _).mp h).2
    · intro h
      apply List.mem_cons.mpr
      right
      exact (common_del _ _ _ _).mpr ⟨rfl, h⟩
  · rw [reconnect_evs_eq]
    constructor
    · intro h
      rcases List.mem_cons.mp h with h | h
      · cases h
      · exact ((common_sshFree _ _ _ _).mp h).2
    · intro h
      apply List.mem_cons.mpr
      right
      exact (common_sshFree _ _ _ _).mpr ⟨rfl, h⟩
  · intro j h
    rw [reconnect_evs_eq] at h
    rcases List.mem_cons.mp h with h | h
    · cases h
    · exact common_no_timer _ _ _ _ h

/-- C9: a non-empty configured identity containing a path separator is used
verbatim as the identity path; one without a separator is substituted into
the per-user default key-directory pattern. -/
theorem C9_identity_resolution (cfg : Config) (h : cfg.tmate_identity.length ≠ 0) :
    get_identity cfg = some (if cfg.tmate_identity.data.contains '/'
      then cfg.tmate_identity else "%d/" ++ cfg.tmate_identity) := by
  unfold get_identity
  rw [if_neg (by simpa using h)]
  split <;> rfl

/-- Witness for C9 at the spec's two example inputs. -/
theorem C9_identity_resolution_witness :
    get_identity w_cfg = some "%d/id_rsa" ∧
    get_identity { w_cfg with tmate_identity := "/home/u/.ssh/id_rsa" }
      = some "/home/u/.ssh/id_rsa" := by
  constructor
  · rw [C9_identity_resolution w_cfg (by decide)]
    decide
  · rw [C9_identity_resolution { w_cfg with tmate_identity := "/home/u/.ssh/id_rsa" } (by decide)]
    decide

lemma step_m_auth_server_eq (cfg : Config) (env : Env) (m : M)
    (h : m.cur.state = SshState.SSH_AUTH_SERVER) :
    step_m cfg env m = handle_auth_server cfg env m := by
  unfold step_m
  rw [h]

lemma step_m_auth_client_eq (cfg : Config) (env : Env) (m : M)
    (h : m.cur.state = SshState.SSH_AUTH_CLIENT) :
    step_m cfg env m = handle_auth_client env m := by
  unfold step_m
  rw [h]

/-- C2 (code bug, failing input): one invocation on a single READY candidate
whose channel read fails and whose stale connectivity check reports
disconnected removes the candidate from the session's list twice and
surfaces a second user-visible message, because the SSH_READY case re-runs
reconnect teardown after read_channel already tore the candidate down. -/
theorem C2_double_teardown_eval :
    ((on_ssh_client_event w_cfg w_env_read_err w_sessReady 0).2.count (Ev.removeFromList 0) = 2) ∧
    Ev.statusMessage "Error reading from channel: boom" ∈
      (on_ssh_client_event w_cfg w_env_read_err w_sessReady 0).2 ∧
    Ev.statusMessage "Disconnected" ∈
      (on_ssh_client_event w_cfg w_env_read_err w_sessReady 0).2 := by
  decide

/-- C4 (counterexample): with a single candidate in AUTH_SERVER, a failed
public key retrieval is a process-fatal error named "ssh_get_publickey";
the candidate is not killed and no "Cannot authenticate server" message is
produced, contradicting the claim that retrieval failure kills the
candidate with that cause. -/
theorem C4_publickey_failure_counterexample :
    on_ssh_client_event w_cfg w_env_nopub w_sess 0 = (w_sess, [Ev.fatal "ssh_get_publickey"]) ∧
    Ev.removeFromList 0 ∉ (on_ssh_client_event w_cfg w_env_nopub w_sess 0).2 ∧
    Ev.freeClient 0 ∉ (on_ssh_client_event w_cfg w_env_nopub w_sess 0).2 := by
  decide

/-- C6 (counterexample): auth denied on the prompt path taken right after
need_passphrase was first set, with no cached passphrase: the passphrase
prompt is attached but no retry hint is emitted, contradicting the claim
that the prompt path always emits the hint. -/
theorem C6_hint_missing_counterexample :
    (on_ssh_client_event w_cfg w_env_denied_cb w_sessAuth 0).2
      = [Ev.authAttempt 0 none, Ev.promptAttach 0] ∧
    (∀ s, Ev.statusMessage s ∉ (on_ssh_client_event w_cfg w_env_denied_cb w_sessAuth 0).2) ∧
    (on_ssh_client_event w_cfg w_env_denied_cb w_sessAuth 0).1.prompt_pending = true := by
  refine ⟨by decide, ?_, by decide⟩
  intro s hs
  have h2 : (on_ssh_client_event w_cfg w_env_denied_cb w_sessAuth 0).2
      = [Ev.authAttempt 0 none, Ev.promptAttach 0] := by decide
  rw [h2] at hs
  rcases List.mem_cons.mp hs with h | h
  · cases h
  · rcases List.mem_cons.mp h with h | h
    · cases h
    · simp at h

lemma auth_client_denied_eq (env : Env) (m : M)
    (hdl : auth_denied_like env.auth_rc = true) :
    handle_auth_client env m = auth_denied_action (auth_client_pre env m) := by
  unfold handle_auth_client
  cases h : env.auth_rc <;> try rfl
  all_goals simp [auth_denied_like, h] at hdl

lemma pre_clients (env : Env) (m : M) : (auth_client_pre env m).clients = m.clients := by
  unfold auth_client_pre
  split <;> rfl

lemma pre_cur (env : Env) (m : M) :
    (auth_client_pre env m).cur = { m.cur with tried_passphrase := m.passphrase } := by
  unfold auth_client_pre
  split <;> rfl

lemma pre_evs (env : Env) (m : M) :
    (auth_client_pre env m).evs = m.evs ++ [Ev.authAttempt m.cur.id m.passphrase] := by
  unfold auth_client_pre
  split <;> rfl

lemma pre_need (env : Env) (m : M) :
    (auth_client_pre env m).need_passphrase
      = (if env.auth_cb_invoked then true else m.need_passphrase) := by
  unfold auth_client_pre
  split <;> rfl

lemma pre_prompt (env : Env) (m : M) :
    (auth_client_pre env m).prompt_pending = m.prompt_pending := by
  unfold auth_client_pre
  split <;> rfl

lemma pre_passphrase (env : Env) (m : M) :
    (auth_client_pre env m).passphrase = m.passphrase := by
  unfold auth_client_pre
  split <;> rfl

lemma pre_cur_in_list (env : Env) (m : M) :
    (auth_client_pre env m).cur_in_list = m.cur_in_list := by
  unfold auth_client_pre
  split <;> rfl

lemma request_cur (m : M) : (request_passphrase m).cur = m.cur := by
  unfold request_passphrase
  split <;> rfl

lemma request_clients (m : M) : (request_passphrase m).clients = m.clients := by
  unfold request_passphrase
  split <;> rfl

lemma request_prompt (m : M) : (request_passphrase m).prompt_pending = true ∨
    ((request_passphrase m).prompt_pending = m.prompt_pending ∧ m.prompt_pending = true) := by
  unfold request_passphrase
  split
  · right
    constructor
    · rfl
    · assumption
  · left
    rfl

lemma request_evs (m : M) :
    (request_passphrase m).evs = m.evs ∨
      (request_passphrase m).evs = m.evs ++ [Ev.promptAttach m.cur.id] := by
  unfold request_passphrase
  split
  · exact Or.inl rfl
  · exact Or.inr rfl

lemma killCur_cur_tried (m : M) (fmt : Option String) :
    (killCur m fmt).cur.tried_passphrase = m.cur.tried_passphrase := by
  rw [killCur_cur, common_fst]

lemma on_event_found (cfg : Config) (env : Env) (sess : TmateSession) (cid : Nat)
    (c : SshClient) (hf : findClient sess.clients cid = some c) :
    on_ssh_client_event cfg env sess cid
      = finishM (step_m cfg env (initM sess c)) cid := by
  unfold on_ssh_client_event
  rw [hf]

/-- C4 (amended): in AUTH_SERVER, a failed public key retrieval is
process-fatal ("ssh_get_publickey") and the candidate list is untouched,
while a failed hash retrieval kills only that candidate with cause
"Cannot authenticate server". -/
theorem C4_auth_server_retrieval (cfg : Config) (env : Env) (sess : TmateSession)
    (cid : Nat) (c : SshClient) (hf : findClient sess.clients cid = some c)
    (hst : c.state = SshState.SSH_AUTH_SERVER) :
    (env.get_publickey_ok = false →
      (on_ssh_client_event cfg env sess cid).2 = [Ev.fatal "ssh_get_publickey"] ∧
      (on_ssh_client_event cfg env sess cid).1.clients.length = sess.clients.length) ∧
    (env.get_publickey_ok = true → env.get_publickey_hash_ok = false →
      (on_ssh_client_event cfg env sess cid).2
        = (kill_ssh_client sess.clients c (some "Cannot authenticate server")).2 ∧
      (on_ssh_client_event cfg env sess cid).1.clients = removeId sess.clients c.id) := by
  rw [on_event_found cfg env sess cid c hf]
  rw [step_m_auth_server_eq cfg env _ (by exact hst)]
  unfold handle_auth_server
  constructor
  · intro hpk
    rw [hpk]
    refine ⟨rfl, ?_⟩
    show ((sess.clients.map (fun k => if k.id == cid then c else k)).length
      = sess.clients.length)
    exact List.length_map _ _
  · intro hpk hh
    rw [hpk, hh]
    exact ⟨rfl, rfl⟩

/-- C3: the host key check matches exactly when the key type is one of the
two recognized types and the hash hex string equals the corresponding
configured fingerprint (an unrecognized type is compared against the empty
string and always mismatches for a real digest); on mismatch the candidate
is killed with "Cannot authenticate server" and the siblings are untouched. -/
theorem C3_host_key_check :
    (∀ (cfg : Config) (kt : KeyType) (h : String), h ≠ "" →
      (host_key_match cfg kt h = true ↔
        ((kt = KeyType.SSH_KEYTYPE_RSA ∧ h = cfg.rsa_fingerprint) ∨
         (kt = KeyType.SSH_KEYTYPE_ECDSA ∧ h = cfg.ecdsa_fingerprint)))) ∧
    (∀ (cfg : Config) (env : Env) (sess : TmateSession) (cid : Nat) (c : SshClient),
      findClient sess.clients cid = some c →
      c.state = SshState.SSH_AUTH_SERVER →
      env.get_publickey_ok = true → env.get_publickey_hash_ok = true →
      env.get_hexa_ok = true →
      host_key_match cfg env.key_type env.hash_str = false →
      (on_ssh_client_event cfg env sess cid).2
        = (kill_ssh_client sess.clients c (some "Cannot authenticate server")).2 ∧
      (on_ssh_client_event cfg env sess cid).1.clients = removeId sess.clients c.id ∧
      (on_ssh_client_event cfg env sess cid).1.passphrase = sess.passphrase ∧
      (on_ssh_client_event cfg env sess cid).1.need_passphrase = sess.need_passphrase) := by
  constructor
  · intro cfg kt h hne
    cases kt with
    | SSH_KEYTYPE_RSA =>
        unfold host_key_match server_fingerprint
        simp
    | SSH_KEYTYPE_ECDSA =>
        unfold host_key_match server_fingerprint
        simp
    | SSH_KEYTYPE_UNKNOWN =>
        unfold host_key_match server_fingerprint
        simp [hne]
  · intro cfg env sess cid c hf hst hpk hh hx hm
    rw [on_event_found cfg env sess cid c hf]
    rw [step_m_auth_server_eq cfg env _ (by exact hst)]
    unfold handle_auth_server
    rw [hpk, hh, hx, hm]
    exact ⟨rfl, rfl, rfl, rfl⟩

lemma initM_clients (sess : TmateSession) (c : SshClient) :
    (initM sess c).clients = sess.clients := rfl

lemma initM_cur (sess : TmateSession) (c : SshClient) : (initM sess c).cur = c := rfl

lemma initM_evs (sess : TmateSession) (c : SshClient) : (initM sess c).evs = [] := rfl

lemma initM_passphrase (sess : TmateSession) (c : SshClient) :
    (initM sess c).passphrase = sess.passphrase := rfl

lemma initM_need (sess : TmateSession) (c : SshClient) :
    (initM sess c).need_passphrase = sess.need_passphrase := rfl

lemma finishM_prompt (m : M) (cid : Nat) :
    (finishM m cid).1.prompt_pending = m.prompt_pending := rfl

lemma finishM_passphrase (m : M) (cid : Nat) :
    (finishM m cid).1.passphrase = m.passphrase := rfl

lemma auth_client_again_eq (env : Env) (m : M) (h : env.auth_rc = AuthRc.SSH_AUTH_AGAIN) :
    handle_auth_client env m = auth_client_pre env m := by
  unfold handle_auth_client
  rw [h]

lemma denied_action_kill (m2 : M) (hneed : m2.need_passphrase = false)
    (htried : m2.cur.tried_passphrase = none) :
    auth_denied_action m2
      = killCur m2 (some "SSH keys not found. Run \x27ssh-keygen\x27 to create keys and try again.") := by
  unfold auth_denied_action auth_denied_hint
  rw [hneed]
  simp only [Bool.false_eq_true, if_false, killCur_cur_tried, htried, Option.isSome_none]

lemma denied_action_kill_hint (m2 : M) (p : String) (hneed : m2.need_passphrase = false)
    (htried : m2.cur.tried_passphrase = some p) :
    auth_denied_action m2
      = (killCur m2 (some "SSH keys not found. Run \x27ssh-keygen\x27 to create keys and try again.")).emit
          (Ev.statusMessage "Can\x27t load SSH key. Try typing passphrase again in case of typo. ctrl-c to abort.") := by
  unfold auth_denied_action auth_denied_hint
  rw [hneed]
  simp only [Bool.false_eq_true, if_false, killCur_cur_tried, htried, Option.isSome_some, if_true]

lemma denied_action_prompt (m2 : M) (hneed : m2.need_passphrase = true)
    (htried : m2.cur.tried_passphrase = none) :
    auth_denied_action m2 = request_passphrase m2 := by
  unfold auth_denied_action auth_denied_hint
  rw [hneed]
  simp only [if_true, request_cur, htried, Option.isNone_none, Option.isSome_none,
    Bool.false_eq_true, if_false]

lemma denied_action_prompt_hint (m2 : M) (p : String) (hneed : m2.need_passphrase = true)
    (htried : m2.cur.tried_passphrase = some p) :
    auth_denied_action m2
      = (request_passphrase m2).emit
          (Ev.statusMessage "Can\x27t load SSH key. Try typing passphrase again in case of typo. ctrl-c to abort.") := by
  unfold auth_denied_action auth_denied_hint
  rw [hneed]
  simp only [if_true, request_cur, htried, Option.isSome_some]

lemma request_attach (m2 : M) (h : m2.prompt_pending = false) :
    (request_passphrase m2).evs = m2.evs ++ [Ev.promptAttach m2.cur.id] ∧
    (request_passphrase m2).prompt_pending = true ∧
    (request_passphrase m2).clients = m2.clients ∧
    (request_passphrase m2).cur_in_list = m2.cur_in_list := by
  unfold request_passphrase
  rw [h]
  simp

/-- C5: in AUTH_CLIENT on a denied-class result, without need_passphrase the
candidate is killed with the "SSH keys not found..." message; with
need_passphrase set the passphrase prompt is attached and the candidate
survives; submitting a passphrase caches it on the session, re-invokes the
state machine, and the resumed attempt carries the new value as its trial
passphrase. -/
theorem C5_passphrase_flow :
    (∀ (cfg : Config) (env : Env) (sess : TmateSession) (cid : Nat) (c : SshClient),
      findClient sess.clients cid = some c →
      c.state = SshState.SSH_AUTH_CLIENT →
      auth_denied_like env.auth_rc = true →
      env.auth_cb_invoked = false →
      sess.need_passphrase = false →
      sess.passphrase = none →
      (on_ssh_client_event cfg env sess cid).2
        = Ev.authAttempt c.id none ::
            (kill_ssh_client sess.clients { c with tried_passphrase := none }
              (some "SSH keys not found. Run \x27ssh-keygen\x27 to create keys and try again.")).2 ∧
      (on_ssh_client_event cfg env sess cid).1.clients = removeId sess.clients c.id) ∧
    (∀ (cfg : Config) (env : Env) (sess : TmateSession) (cid : Nat) (c : SshClient),
      findClient sess.clients cid = some c →
      c.state = SshState.SSH_AUTH_CLIENT →
      auth_denied_like env.auth_rc = true →
      sess.need_passphrase = true →
      sess.prompt_pending = false →
      Ev.promptAttach c.id ∈ (on_ssh_client_event cfg env sess cid).2 ∧
      (on_ssh_client_event cfg env sess cid).1.prompt_pending = true ∧
      (on_ssh_client_event cfg env sess cid).1.clients.length = sess.clients.length ∧
      (∀ j, Ev.freeClient j ∉ (on_ssh_client_event cfg env sess cid).2)) ∧
    (∀ (cfg : Config) (env : Env) (sess : TmateSession) (cid : Nat) (c : SshClient)
        (pass : String),
      findClient sess.clients cid = some c →
      c.state = SshState.SSH_AUTH_CLIENT →
      env.auth_rc = AuthRc.SSH_AUTH_AGAIN →
      (on_passphrase_read cfg env sess cid pass).1.passphrase = some pass ∧
      (on_passphrase_read cfg env sess cid pass).2 = [Ev.authAttempt c.id (some pass)] ∧
      { c with tried_passphrase := some pass }
        ∈ (on_passphrase_read cfg env sess cid pass).1.clients) := by
  refine ⟨?_, ?_, ?_⟩
  · intro cfg env sess cid c hf hst hdl hcb hneed hpass
    rw [on_event_found cfg env sess cid c hf]
    rw [step_m_auth_client_eq cfg env _ (by exact hst)]
    rw [auth_client_denied_eq env _ hdl]
    have hneed2 : (auth_client_pre env (initM sess c)).need_passphrase = false := by
      rw [pre_need, hcb]
      exact hneed
    have htried2 : (auth_client_pre env (initM sess c)).cur.tried_passphrase = none := by
      rw [pre_cur]
      exact hpass
    rw [denied_action_kill _ hneed2 htried2]
    constructor
    · rw [finishM_evs]
      rw [killCur_evs, pre_evs, kill_evs_eq]
      simp only [pre_clients, pre_cur, initM_clients, initM_cur, initM_evs,
        initM_passphrase, hpass]
      simp
    · rw [finishM_clients]
      have hcil : (killCur (auth_client_pre env (initM sess c))
          (some "SSH keys not found. Run \x27ssh-keygen\x27 to create keys and try again.")).cur_in_list
          = false := rfl
      rw [hcil]
      simp only [Bool.false_eq_true, if_false]
      rw [killCur_clients, pre_clients, pre_cur]
      rfl
  · intro cfg env sess cid c hf hst hdl hneed hpp
    rw [on_event_found cfg env sess cid c hf]
    rw [step_m_auth_client_eq cfg env _ (by exact hst)]
    rw [auth_client_denied_eq env _ hdl]
    have hneed2 : (auth_client_pre env (initM sess c)).need_passphrase = true := by
      rw [pre_need]
      split
      · rfl
      · exact hneed
    have hpp2 : (auth_client_pre env (initM sess c)).prompt_pending = false := by
      rw [pre_prompt]
      exact hpp
    obtain ⟨hrevs, hrpp, hrcl, hrcil⟩ := request_attach _ hpp2
    have hcurid : (auth_client_pre env (initM sess c)).cur.id = c.id := by
      rw [pre_cur]
      rfl
    cases hp : sess.passphrase with
    | none =>
        have htried2 : (auth_client_pre env (initM sess c)).cur.tried_passphrase = none := by
          rw [pre_cur]
          exact hp
        rw [denied_action_prompt _ hneed2 htried2]
        refine ⟨?_, ?_, ?_, ?_⟩
        · show Ev.promptAttach c.id ∈ (request_passphrase _).evs
          rw [hrevs, pre_evs, hcurid]
          simp
        · rw [finishM_prompt, hrpp]
        · rw [finishM_clients]
          have : (request_passphrase (auth_client_pre env (initM sess c))).cur_in_list
              = true := by
            rw [hrcil, pre_cur_in_list]
            rfl
          rw [this, if_pos rfl]
          rw [List.length_map, hrcl, pre_clients, initM_clients]
        · intro j hj
          rw [finishM_evs, hrevs, pre_evs, initM_evs] at hj
          simp at hj
    | some p =>
        have htried2 : (auth_client_pre env (initM sess c)).cur.tried_passphrase = some p := by
          rw [pre_cur]
          exact hp
        rw [denied_action_prompt_hint _ p hneed2 htried2]
        refine ⟨?_, ?_, ?_, ?_⟩
        · show Ev.promptAttach c.id ∈ ((request_passphrase _).emit _).evs
          rw [emit_evs, hrevs, pre_evs, hcurid]
          simp
        · rw [finishM_prompt]
          show (request_passphrase _).prompt_pending = true
          rw [hrpp]
        · rw [finishM_clients]
          have : ((request_passphrase (auth_client_pre env (initM sess c))).emit
              (Ev.statusMessage "Can\x27t load SSH key. Try typing passphrase again in case of typo. ctrl-c to abort.")).cur_in_list
              = true := by
            rw [emit_cur_in_list, hrcil, pre_cur_in_list]
            rfl
          rw [this, if_pos rfl]
          rw [List.length_map]
          show (request_passphrase _).clients.length = _
          rw [hrcl, pre_clients, initM_clients]
        · intro j hj
          rw [finishM_evs, emit_evs, hrevs, pre_evs, initM_evs] at hj
          simp at hj
  · intro cfg env sess cid c pass hf hst hagain
    have hf2 : findClient ({ sess with passphrase := some pass } : TmateSession).clients cid
        = some c := hf
    obtain ⟨hmemc, hidc⟩ := findClient_mem hf
    show _ ∧ _ ∧ _
    rw [show on_passphrase_read cfg env sess cid pass
        = on_ssh_client_event cfg env { sess with passphrase := some pass } cid from rfl]
    rw [on_event_found cfg env _ cid c hf2]
    rw [step_m_auth_client_eq cfg env _ (by exact hst)]
    rw [auth_client_again_eq env _ hagain]
    refine ⟨?_, ?_, ?_⟩
    · rw [finishM_passphrase, pre_passphrase]
      rfl
    · rw [finishM_evs, pre_evs]
      rfl
    · rw [finishM_clients]
      have : (auth_client_pre env (initM { sess with passphrase := some pass } c)).cur_in_list
          = true := by
        rw [pre_cur_in_list]
        rfl
      rw [this, if_pos rfl]
      rw [pre_clients, initM_clients]
      apply List.mem_map.mpr
      refine ⟨c, by exact hmemc, ?_⟩
      rw [if_pos (by simpa using hidc), pre_cur]
      rfl

/-- C6 (amended): on a denied-class result in AUTH_CLIENT the retry hint is
emitted iff the trial passphrase of the attempt (the session's cached
passphrase recorded when the attempt started) was present; the prompt path
entered right after need_passphrase was first set, with nothing cached yet,
emits no hint. -/
theorem C6_retry_hint_iff (cfg : Config) (env : Env) (sess : TmateSession)
    (cid : Nat) (c : SshClient)
    (hf : findClient sess.clients cid = some c)
    (hst : c.state = SshState.SSH_AUTH_CLIENT)
    (hdl : auth_denied_like env.auth_rc = true) :
    (Ev.statusMessage "Can\x27t load SSH key. Try typing passphrase again in case of typo. ctrl-c to abort."
        ∈ (on_ssh_client_event cfg env sess cid).2)
      ↔ sess.passphrase.isSome = true := by
  rw [on_event_found cfg env sess cid c hf]
  rw [step_m_auth_client_eq cfg env _ (by exact hst)]
  rw [auth_client_denied_eq env _ hdl]
  rw [finishM_evs]
  cases hp : sess.passphrase with
  | some p =>
      have htried : (auth_client_pre env (initM sess c)).cur.tried_passphrase = some p := by
        rw [pre_cur]
        exact hp
      simp only [Option.isSome_some]
      cases hn : (auth_client_pre env (initM sess c)).need_passphrase with
      | true =>
          rw [denied_action_prompt_hint _ p hn htried, emit_evs]
          simp
      | false =>
          rw [denied_action_kill_hint _ p hn htried, emit_evs]
          simp
  | none =>
      have htried : (auth_client_pre env (initM sess c)).cur.tried_passphrase = none := by
        rw [pre_cur]
        exact hp
      simp only [Option.isSome_none, Bool.false_eq_true, iff_false]
      cases hn : (auth_client_pre env (initM sess c)).need_passphrase with
      | true =>
          rw [denied_action_prompt _ hn htried]
          intro hmem
          rcases request_evs (auth_client_pre env (initM sess c)) with hre | hre <;>
            rw [hre, pre_evs, initM_evs] at hmem <;> simp at hmem
      | false =>
          rw [denied_action_kill _ hn htried]
          intro hmem
          rw [killCur_evs, pre_evs, initM_evs] at hmem
          rcases List.mem_append.mp hmem with h | h
          · rcases List.mem_append.mp h with h | h
            · simp at h
            · rcases List.mem_cons.mp h with h | h
              · cases h
              · exact absurd ((common_status_some _ _ _ _).mp h).1 (by decide)
          · simp at h

lemma SessInv_at_most_one (s : TmateSession) (h : SessInv s) :
    (s.clients.filter (fun c => statePast c.state)).length ≤ 1 := by
  rcases h.2 with hnp | hlen
  · have he : s.clients.filter (fun c => statePast c.state) = [] := by
      rw [List.filter_eq_nil_iff]
      intro a ha
      simp [hnp a ha]
    rw [he]
    simp
  · exact le_trans (List.length_filter_le _ _) hlen

lemma SessInv_at_most_one_ready (s : TmateSession) (h : SessInv s) :
    (s.clients.filter (fun c => c.state == SshState.SSH_READY)).length ≤ 1 := by
  rcases h.2 with hnp | hlen
  · have he : s.clients.filter (fun c => c.state == SshState.SSH_READY) = [] := by
      rw [List.filter_eq_nil_iff]
      intro a ha
      intro hc
      have : a.state = SshState.SSH_READY := by simpa using hc
      have := hnp a ha
      rw [‹a.state = SshState.SSH_READY›] at this
      simp [statePast] at this
    rw [he]
    simp
  · exact le_trans (List.length_filter_le _ _) hlen

/-- C1: from any session whose candidates have not passed AUTH_SERVER, over
any interleaving of readiness events at most one candidate is ever past
AUTH_SERVER (hence at most one in READY with the IOBridge wired); the
race-win elimination keeps exactly the winner in the list, asserts
!has_encoder for every eliminated sibling and frees it, surfacing no
user-visible message; and an invocation whose host key check succeeds in
AUTH_SERVER leaves only the winner's id in the session's candidate list
within that same invocation. -/
theorem C1_race_single_winner :
    (∀ (cfg : Config) (evts : List (Nat × Env)) (sess0 : TmateSession),
      (∀ c ∈ sess0.clients, statePast c.state = false) →
      ((sess0.clients.map (fun c => c.id)).Nodup) →
      ((run_events cfg evts sess0).1.clients.filter (fun c => statePast c.state)).length ≤ 1 ∧
      ((run_events cfg evts sess0).1.clients.filter (fun c => c.state == SshState.SSH_READY)).length ≤ 1) ∧
    (∀ m : M,
      (on_ssh_auth_server_complete m).clients
          = m.clients.filter (fun k => k.id == m.cur.id) ∧
      (∀ k ∈ m.clients, k.id ≠ m.cur.id →
        Ev.assertCheck (!k.has_encoder) ∈ (on_ssh_auth_server_complete m).evs ∧
        Ev.freeClient k.id ∈ (on_ssh_auth_server_complete m).evs) ∧
      (∀ s, Ev.statusMessage s ∈ (on_ssh_auth_server_complete m).evs →
        Ev.statusMessage s ∈ m.evs)) ∧
    (∀ (cfg : Config) (env : Env) (sess : TmateSession) (cid : Nat) (c : SshClient),
      findClient sess.clients cid = some c →
      c.state = SshState.SSH_AUTH_SERVER →
      env.get_publickey_ok = true → env.get_publickey_hash_ok = true →
      env.get_hexa_ok = true →
      host_key_match cfg env.key_type env.hash_str = true →
      ((on_ssh_client_event cfg env sess cid).1.clients.all (fun k => k.id == c.id)) = true) := by
  refine ⟨?_, ?_, ?_⟩
  · intro cfg evts sess0 hnp hnd
    have hfin := run_SessInv cfg evts sess0 ⟨hnd, Or.inl hnp⟩
    exact ⟨SessInv_at_most_one _ hfin, SessInv_at_most_one_ready _ hfin⟩
  · intro m
    refine ⟨complete_clients m, ?_, complete_status m⟩
    intro k hk hne
    exact ⟨complete_assert_mem m k hk hne, complete_free_mem m k hk hne⟩
  · intro cfg env sess cid c hf hst hpk hh hx hm
    obtain ⟨hmemc, hidc⟩ := findClient_mem hf
    rw [on_event_found cfg env sess cid c hf]
    rw [step_m_auth_server_eq cfg env _ (by exact hst)]
    unfold handle_auth_server
    rw [hpk, hh, hx, hm]
    rw [List.all_eq_true]
    intro k hk
    have hk0 : k ∈ (finishM (handle_auth_client env
        { on_ssh_auth_server_complete
            ((initM sess c).emit (Ev.debugMsg ("Connected to " ++ (initM sess c).cur.server_ip))) with
          cur := { (on_ssh_auth_server_complete
              ((initM sess c).emit (Ev.debugMsg ("Connected to " ++ (initM sess c).cur.server_ip)))).cur with
            state := SshState.SSH_AUTH_CLIENT } }) cid).1.clients := hk
    have key : ∀ k2 : SshClient, k2 ∈ (handle_auth_client env
        { on_ssh_auth_server_complete
            ((initM sess c).emit (Ev.debugMsg ("Connected to " ++ (initM sess c).cur.server_ip))) with
          cur := { (on_ssh_auth_server_complete
              ((initM sess c).emit (Ev.debugMsg ("Connected to " ++ (initM sess c).cur.server_ip)))).cur with
            state := SshState.SSH_AUTH_CLIENT } }).clients → k2.id = c.id := by
      intro k2 hk2
      have hk3 := (handlerOK_auth_client env _).1.mem hk2
      have hk4 : k2 ∈ (on_ssh_auth_server_complete
          ((initM sess c).emit (Ev.debugMsg ("Connected to " ++ (initM sess c).cur.server_ip)))).clients := hk3
      rw [complete_clients] at hk4
      have h5 := (List.mem_filter.mp hk4).2
      simpa using h5
    have curid : (handle_auth_client env
        { on_ssh_auth_server_complete
            ((initM sess c).emit (Ev.debugMsg ("Connected to " ++ (initM sess c).cur.server_ip))) with
          cur := { (on_ssh_auth_server_complete
              ((initM sess c).emit (Ev.debugMsg ("Connected to " ++ (initM sess c).cur.server_ip)))).cur with
            state := SshState.SSH_AUTH_CLIENT } }).cur.id = c.id := by
      rw [(handlerOK_auth_client env _).2.1]
      show (on_ssh_auth_server_complete
          ((initM sess c).emit (Ev.debugMsg ("Connected to " ++ (initM sess c).cur.server_ip)))).cur.id = c.id
      rw [complete_cur]
      rfl
    rw [finishM_clients] at hk0
    by_cases hcil : (handle_auth_client env
        { on_ssh_auth_server_complete
            ((initM sess c).emit (Ev.debugMsg ("Connected to " ++ (initM sess c).cur.server_ip))) with
          cur := { (on_ssh_auth_server_complete
              ((initM sess c).emit (Ev.debugMsg ("Connected to " ++ (initM sess c).cur.server_ip)))).cur with
            state := SshState.SSH_AUTH_CLIENT } }).cur_in_list = true
    · rw [if_pos hcil] at hk0
      rcases List.mem_map.mp hk0 with ⟨a, ha, hak⟩
      have haid := key a ha
      by_cases hac : (a.id == cid) = true
      · rw [if_pos hac] at hak
        rw [← hak]
        simp [curid]
      · rw [if_neg hac] at hak
        rw [← hak]
        simp [haid]
    · rw [if_neg hcil] at hk0
      simp [key k hk0]

/-- C10: has_encoder is initialized to 0 at allocation and never set by any
operation in this module, including the BOOTSTRAP step that wires the
encoder and decoder; hence in every reachable state every candidate has
has_encoder = 0 and every assertion checked during winner elimination
holds. -/
theorem C10_has_encoder_never_set :
    (∀ (i : Nat) (ip : String), (new_ssh_client i ip).has_encoder = false) ∧
    (∀ (env : Env) (m : M),
      (handle_bootstrap env m).cur.has_encoder = m.cur.has_encoder) ∧
    (∀ (cfg : Config) (evts : List (Nat × Env)) (sess0 : TmateSession),
      (∀ c ∈ sess0.clients, c.has_encoder = false) →
      (∀ c ∈ (run_events cfg evts sess0).1.clients, c.has_encoder = false) ∧
      (∀ b, Ev.assertCheck b ∈ (run_events cfg evts sess0).2 → b = true)) := by
  refine ⟨?_, ?_, ?_⟩
  · intro i ip
    rfl
  · intro env m
    exact (handlerOK_bootstrap env m).2.2.1
  · intro cfg evts sess0 h
    exact run_EncInv cfg evts sess0 h

/-- Witness for C1 at a concrete two-candidate race won by candidate 0. -/
theorem C1_race_single_winner_witness :
    ((run_events w_cfg [(0, w_env)] w_sess).1.clients.filter
        (fun c => statePast c.state)).length ≤ 1 ∧
    (on_ssh_auth_server_complete (initM w_sess w_c0)).clients
      = (initM w_sess w_c0).clients.filter
          (fun k => k.id == (initM w_sess w_c0).cur.id) ∧
    Ev.assertCheck (!w_c1.has_encoder) ∈ (on_ssh_auth_server_complete (initM w_sess w_c0)).evs ∧
    ((on_ssh_client_event w_cfg w_env w_sess 0).1.clients.all (fun k => k.id == w_c0.id)) = true :=
  ⟨(C1_race_single_winner.1 w_cfg [(0, w_env)] w_sess (by decide) (by decide)).1,
   (C1_race_single_winner.2.1 (initM w_sess w_c0)).1,
   ((C1_race_single_winner.2.1 (initM w_sess w_c0)).2.1 w_c1 (by decide) (by decide)).1,
   C1_race_single_winner.2.2 w_cfg w_env w_sess 0 w_c0 (by decide) (by decide) rfl rfl rfl (by decide)⟩

/-- Witness for C3 at the configured RSA fingerprint and a mismatch run. -/
theorem C3_host_key_check_witness :
    (host_key_match w_cfg KeyType.SSH_KEYTYPE_RSA "aa:bb" = true ↔
      ((KeyType.SSH_KEYTYPE_RSA = KeyType.SSH_KEYTYPE_RSA ∧ "aa:bb" = w_cfg.rsa_fingerprint) ∨
       (KeyType.SSH_KEYTYPE_RSA = KeyType.SSH_KEYTYPE_ECDSA ∧ "aa:bb" = w_cfg.ecdsa_fingerprint))) ∧
    (on_ssh_client_event w_cfg w_env_mismatch w_sess 0).2
      = (kill_ssh_client w_sess.clients w_c0 (some "Cannot authenticate server")).2 :=
  ⟨C3_host_key_check.1 w_cfg KeyType.SSH_KEYTYPE_RSA "aa:bb" (by decide),
   (C3_host_key_check.2 w_cfg w_env_mismatch w_sess 0 w_c0 (by decide) (by decide)
      rfl rfl rfl (by decide)).1⟩

/-- Witness for C4 (amended) at concrete key and hash retrieval failures. -/
theorem C4_auth_server_retrieval_witness :
    (on_ssh_client_event w_cfg w_env_nopub w_sess 0).2 = [Ev.fatal "ssh_get_publickey"] ∧
    (on_ssh_client_event w_cfg { w_env with get_publickey_hash_ok := false } w_sess 0).2
      = (kill_ssh_client w_sess.clients w_c0 (some "Cannot authenticate server")).2 :=
  ⟨((C4_auth_server_retrieval w_cfg w_env_nopub w_sess 0 w_c0 (by decide) (by decide)).1 rfl).1,
   ((C4_auth_server_retrieval w_cfg { w_env with get_publickey_hash_ok := false } w_sess 0 w_c0
      (by decide) (by decide)).2 rfl rfl).1⟩

/-- Witness for C5 at the spec's three concrete scenarios. -/
theorem C5_passphrase_flow_witness :
    (on_ssh_client_event w_cfg w_env_denied w_sessAuth 0).2
      = Ev.authAttempt 0 none ::
          (kill_ssh_client w_sessAuth.clients
            { w_c0 with state := SshState.SSH_AUTH_CLIENT, tried_passphrase := none }
            (some "SSH keys not found. Run \x27ssh-keygen\x27 to create keys and try again.")).2 ∧
    Ev.promptAttach 0 ∈ (on_ssh_client_event w_cfg w_env_denied w_sessNeed 0).2 ∧
    (on_passphrase_read w_cfg w_env w_sessAuth 0 "hunter2").2
      = [Ev.authAttempt 0 (some "hunter2")] :=
  ⟨(C5_passphrase_flow.1 w_cfg w_env_denied w_sessAuth 0
      { w_c0 with state := SshState.SSH_AUTH_CLIENT }
      (by decide) (by decide) (by decide) rfl rfl rfl).1,
   ((C5_passphrase_flow.2.1 w_cfg w_env_denied w_sessNeed 0
      { w_c0 with state := SshState.SSH_AUTH_CLIENT }
      (by decide) (by decide) (by decide) rfl rfl)).1,
   ((C5_passphrase_flow.2.2 w_cfg w_env w_sessAuth 0
      { w_c0 with state := SshState.SSH_AUTH_CLIENT } "hunter2"
      (by decide) (by decide) rfl)).2.1⟩

/-- Witness for C6 (amended) at a concrete denied attempt with no cached
passphrase. -/
theorem C6_retry_hint_iff_witness :
    (Ev.statusMessage "Can\x27t load SSH key. Try typing passphrase again in case of typo. ctrl-c to abort."
        ∈ (on_ssh_client_event w_cfg w_env_denied_cb w_sessAuth 0).2)
      ↔ w_sessAuth.passphrase.isSome = true :=
  C6_retry_hint_iff w_cfg w_env_denied_cb w_sessAuth 0
    { w_c0 with state := SshState.SSH_AUTH_CLIENT } (by decide) (by decide) (by decide)

/-- Witness for C10 at a concrete one-event run. -/
theorem C10_has_encoder_never_set_witness :
    (new_ssh_client 0 "1.2.3.4").has_encoder = false ∧
    (handle_bootstrap w_env (initM w_sess w_c0)).cur.has_encoder
      = (initM w_sess w_c0).cur.has_encoder ∧
    (∀ c ∈ (run_events w_cfg [(0, w_env)] w_sess).1.clients, c.has_encoder = false) ∧
    (∀ b, Ev.assertCheck b ∈ (run_events w_cfg [(0, w_env)] w_sess).2 → b = true) :=
  ⟨C10_has_encoder_never_set.1 0 "1.2.3.4",
   C10_has_encoder_never_set.2.1 w_env (initM w_sess w_c0),
   (C10_has_encoder_never_set.2.2 w_cfg [(0, w_env)] w_sess (by decide)).1,
   (C10_has_encoder_never_set.2.2 w_cfg [(0, w_env)] w_sess (by decide)).2⟩

/-- Witness for C7 at a concrete one-candidate teardown. -/
theorem C7_message_surfacing_policy_witness :
    (Ev.statusMessage "m" ∈ (kill_ssh_client [w_c0] w_c0 (some "m")).2 ↔
      ("m" = "m" ∧ (removeId [w_c0] w_c0.id).isEmpty = true)) ∧
    (Ev.statusMessage "m" ∈ (reconnect_ssh_client [w_c0] w_c0 (some "m")).2.2 ↔
      ("m" = "m" ∧ (removeId [w_c0] w_c0.id).isEmpty = true)) ∧
    (Ev.statusMessage "m" ∉ (kill_ssh_client [w_c0] w_c0 none).2) ∧
    (Ev.statusMessage "m" ∉ (reconnect_ssh_client [w_c0] w_c0 none).2.2) ∧
    (Ev.debugMsg ("Disconnecting " ++ w_c0.server_ip) ∈ (kill_ssh_client [w_c0] w_c0 (some "m")).2 ↔
      (removeId [w_c0] w_c0.id).isEmpty = false) ∧
    (Ev.debugMsg ("Disconnecting " ++ w_c0.server_ip) ∈ (reconnect_ssh_client [w_c0] w_c0 (some "m")).2.2 ↔
      (removeId [w_c0] w_c0.id).isEmpty = false) ∧
    (Ev.debugMsg ("Disconnecting " ++ w_c0.server_ip) ∈ (kill_ssh_client [w_c0] w_c0 none).2) ∧
    (Ev.debugMsg ("Disconnecting " ++ w_c0.server_ip) ∈ (reconnect_ssh_client [w_c0] w_c0 none).2.2) :=
  C7_message_surfacing_policy [w_c0] w_c0 "m" "m"

/-- Witness for C8 at a concrete candidate. -/
theorem C8_kill_reconnect_equivalence_witness :
    (kill_ssh_client [w_c0, w_c1] w_c0 (some "m")).1
        = (reconnect_ssh_client [w_c0, w_c1] w_c0 (some "m")).1 ∧
    (kill_ssh_client [w_c0, w_c1] w_c0 (some "m")).2
        = (reconnect_ssh_client [w_c0, w_c1] w_c0 (some "m")).2.2 ++ [Ev.freeClient w_c0.id] ∧
    (reconnect_ssh_client [w_c0, w_c1] w_c0 (some "m")).1 = removeId [w_c0, w_c1] w_c0.id ∧
    (reconnect_ssh_client [w_c0, w_c1] w_c0 (some "m")).2.1.state = SshState.SSH_NONE ∧
    (reconnect_ssh_client [w_c0, w_c1] w_c0 (some "m")).2.1.session_handle = false ∧
    (reconnect_ssh_client [w_c0, w_c1] w_c0 (some "m")).2.1.channel_handle
        = (!w_c0.session_handle && w_c0.channel_handle) ∧
    (Ev.eventDel w_c0.id ∈ (reconnect_ssh_client [w_c0, w_c1] w_c0 (some "m")).2.2 ↔
      w_c0.ev_initialized = true) ∧
    (Ev.sshFree w_c0.id ∈ (reconnect_ssh_client [w_c0, w_c1] w_c0 (some "m")).2.2 ↔
      w_c0.session_handle = true) ∧
    (∀ j, Ev.timerArm j ∉ (reconnect_ssh_client [w_c0, w_c1] w_c0 (some "m")).2.2) :=
  C8_kill_reconnect_equivalence [w_c0, w_c1] w_c0 (some "m")
